import Mathlib

/-!
Profile registration / update routes (`src/users.js`, `src/index.js`)

A shallow embedding of the Express routes of the profile form back end:
`POST /check-password`, `POST /register` and `PUT /:username`, together with
the multer upload middleware in front of them and the error middleware of
`src/index.js` behind them.

Conventions of the embedding:

* a JavaScript string is a Lean `String` (a well-formed sequence of Unicode
  characters); `jsLength` is its `.length` in UTF-16 code units;
* a request body is a map from field names to strings (what a multipart form
  delivers); an absent field is `none`;
* the file store is the list of paths that exist, the repository the list of
  stored records;
* everything the environment decides (clock, random suffix, hashing,
  password comparison, datastore faults) is a field of `Env`.
-/

namespace ProfileForm

/-! ## JavaScript strings and the regular expressions of the routes -/

/-- UTF-16 code units of one character. -/
def utf16Units (c : Char) : Nat := if c.toNat < 65536 then 1 else 2

/-- JavaScript `s.length`. -/
def jsLength (s : String) : Nat := (s.toList.map utf16Units).sum

/-- Character class `[0-9]`. -/
def isDigit (c : Char) : Bool := decide (48 ≤ c.toNat) && decide (c.toNat ≤ 57)

/-- Character class `[a-z]`. -/
def isLower (c : Char) : Bool := decide (97 ≤ c.toNat) && decide (c.toNat ≤ 122)

/-- Character class `[A-Z]`. -/
def isUpper (c : Char) : Bool := decide (65 ≤ c.toNat) && decide (c.toNat ≤ 90)

/-- Character class `[^A-Za-z0-9]`. -/
def isNonAlnum (c : Char) : Bool := !(isUpper c || isLower c || isDigit c)

/-- Character class `[!@#$%^&*]`. -/
def isSpecial (c : Char) : Bool := "!@#$%^&*".toList.contains c

/-- Line terminators, the characters `.` does not match: LF, CR, LS, PS. -/
def isLineTerminator (c : Char) : Bool :=
  c.toNat == 10 || c.toNat == 13 || c.toNat == 8232 || c.toNat == 8233

/-- Character class `\s` of ECMAScript: white space and line terminators. -/
def isSpace (c : Char) : Bool :=
  let n := c.toNat
  n == 9 || n == 10 || n == 11 || n == 12 || n == 13 || n == 32 || n == 160 ||
  n == 5760 || (decide (8192 ≤ n) && decide (n ≤ 8202)) || n == 8232 || n == 8233 ||
  n == 8239 || n == 8287 || n == 12288 || n == 65279

/-- The test `/[0-9]/.test(s)`. -/
def hasDigit (s : String) : Bool := s.toList.any isDigit

/-- The test `/[a-z]/.test(s)`. -/
def hasLower (s : String) : Bool := s.toList.any isLower

/-- The test `/[A-Z]/.test(s)`. -/
def hasUpper (s : String) : Bool := s.toList.any isUpper

/-- The test `/[^A-Za-z0-9]/.test(s)`. -/
def hasNonAlnum (s : String) : Bool := s.toList.any isNonAlnum

/-- The characters `.*` can run over from the start of the string. -/
def firstLine (s : String) : List Char := s.toList.takeWhile (fun c => !isLineTerminator c)

/-- A lookahead `(?=.*[class])` at the start of the string: `.*` runs over
characters that are not line terminators, and the character of the class
comes right after such a run. -/
def lookahead (cls : Char → Bool) (s : String) : Bool :=
  (firstLine s).any cls ||
    (match s.toList.dropWhile (fun c => !isLineTerminator c) with
     | [] => false
     | c :: _ => cls c)

/-- The test `/^(?=.*[0-9])(?=.*[!@#$%^&*])/.test(s)`. -/
def matchesDigitAndSpecial (s : String) : Bool :=
  lookahead isDigit s && lookahead isSpecial s

/-- The test `/^\S+$/.test(s)`. -/
def matchesNoSpace (s : String) : Bool :=
  !s.toList.isEmpty && s.toList.all (fun c => !isSpace c)

/-! ## express-validator -/

/-- The string a validator sees: `undefined` becomes the empty string. -/
def toStr (v : Option String) : String := v.getD ""

/-- Variation selectors U+FE0E and U+FE0F, which `isLength` does not count. -/
def isPresentationSelector (c : Char) : Bool := c.toNat == 65038 || c.toNat == 65039

/-- The length `isLength` of validator.js measures: UTF-16 code units minus
surrogate pairs minus variation selectors. -/
def validatorLength (s : String) : Nat :=
  jsLength s - (s.toList.filter isPresentationSelector).length
    - (s.toList.filter (fun c => decide (65536 ≤ c.toNat))).length

/-- The validator `isLength({ min, max })`. -/
def isLength (s : String) (min : Nat) (max : Option Nat) : Bool :=
  decide (min ≤ validatorLength s) &&
    (match max with
     | none => true
     | some m => decide (validatorLength s ≤ m))

/-- One entry of `validationResult(req).array()`. -/
structure ValidationError where
  path : Option String
  msg : String
  value : Option String
deriving DecidableEq, Repr

/-- The chain `body('password').isLength({ min: 8 }).matches(...)`; every
failing validator of the chain adds its own error. -/
def passwordChain (password : Option String) : List ValidationError :=
  let v := toStr password
  (if isLength v 8 none then [] else
    [{ path := some "password", msg := "Password must be at least 8 characters",
       value := password }]) ++
  (if matchesDigitAndSpecial v then [] else
    [{ path := some "password",
       msg := "Password must contain at least one number and one special character",
       value := password }])

/-! ## Responses -/

/-- JSON values of a serialised record. -/
inductive JsVal where
  | null
  | str (s : String)
  | bool (b : Bool)
  | num (n : Nat)
deriving DecidableEq, Repr

/-- Body of a JSON response. -/
inductive Body where
  | errors (errors : List ValidationError)
  | error (error : String)
  | strength (valid : Bool) (strength : String) (score : Nat)
  | user (message : String) (user : List (String × JsVal))
deriving DecidableEq, Repr

/-- The response sent: `res.status(status).json(body)`. -/
structure Response where
  status : Nat
  body : Body
deriving DecidableEq, Repr

/-! ## `POST /check-password` -/

/-- The score computed by the handler of `/check-password`. -/
def passwordScore (password : String) : Nat :=
  let strength := 0
  let strength := if jsLength password ≥ 8 then strength + 1 else strength
  let strength := if jsLength password ≥ 12 then strength + 1 else strength
  let strength := if hasDigit password then strength + 1 else strength
  let strength := if hasLower password then strength + 1 else strength
  let strength := if hasUpper password then strength + 1 else strength
  let strength := if hasNonAlnum password then strength + 1 else strength
  strength

/-- The level the handler derives from the score. -/
def strengthLevel (strength : Nat) : String :=
  let strengthLevel := "weak"
  let strengthLevel := if strength ≥ 4 then "medium" else strengthLevel
  let strengthLevel := if strength ≥ 6 then "strong" else strengthLevel
  strengthLevel

/-- The route `router.post('/check-password', [...], handler)`. -/
def checkPassword (password : Option String) : Response :=
  let errors := passwordChain password
  if !errors.isEmpty then
    { status := 400, body := .errors errors }
  else
    let password := toStr password
    let strength := passwordScore password
    { status := 200, body := .strength true (strengthLevel strength) strength }

/-! ## The record and the repository -/

/-- Modelled from the spec: the `User` model (`models/User.js`), which is
not among the sources. Its fields are those of the ProfileRecord of the
specification; `password` holds the credential hash and `profilePhoto` the
photo reference. -/
structure User where
  id : Nat
  username : String
  password : String
  profession : String
  companyName : Option String
  addressLine1 : String
  country : String
  state : String
  city : String
  subscriptionPlan : String
  newsletter : Bool
  gender : String
  customGender : Option String
  profilePhoto : Option String
  createdAt : Nat
  updatedAt : Nat
deriving DecidableEq, Repr

/-- The repository: the stored records. -/
abbrev Repo := List User

/-- The file store: the paths that exist, written relative to the
application root (`/uploads/<filename>`). -/
abbrev FileStore := List String

/-- What the environment decides during one request. -/
structure Env where
  /-- The clock, `Date.now()` -/
  now : Nat
  /-- The draw `Math.round(Math.random() * 1e9)` -/
  random : Nat
  /-- identifier given to a new document -/
  newId : Nat
  /-- CredentialStore.hash with the salt of this request -/
  hash : String → String
  /-- The call `user.comparePassword(candidate)` on a stored hash; `none` is a thrown error -/
  comparePassword : Option String → String → Option Bool
  /-- Whether `User.findOne` rejects -/
  findOneFails : Bool
  /-- Whether `user.save()` rejects -/
  saveFails : Bool
  /-- the cast of a string to a date, when it has one -/
  castDate : String → Option Nat

/-- A document in memory: the record, whether `password` was assigned since
it was loaded, and the paths whose latest assignment failed to cast. -/
structure Doc where
  user : User
  passwordModified : Bool
  invalid : List String

/-- A failed cast on a path: the path is recorded as invalid. -/
def markInvalid (doc : Doc) (path : String) : Doc :=
  { doc with invalid := path :: doc.invalid }

/-- A successful assignment to a path clears an earlier failure on it. -/
def markValid (doc : Doc) (path : String) : Doc :=
  { doc with invalid := doc.invalid.filter (fun p => p != path) }

/-- The query `User.findOne({ username })`; the outer `none` is a rejection. -/
def findOne (env : Env) (repo : Repo) (username : String) : Option (Option User) :=
  if env.findOneFails then none else some (repo.find? (fun u => u.username == username))

/-- Modelled from the spec: `user.save()` of the absent `User` model. A
modified password is hashed by CredentialStore before the write; the write
is atomic per document: it either stores the whole record (appended when
new, replacing the record of the same identifier otherwise) or nothing. A
document with an invalid path is not written. -/
def save (env : Env) (repo : Repo) (doc : Doc) (isNew : Bool) : Option (Repo × User) :=
  if env.saveFails || !doc.invalid.isEmpty then none
  else
    let u : User :=
      if doc.passwordModified then { doc.user with password := env.hash doc.user.password }
      else doc.user
    some (if isNew then repo ++ [u] else repo.map (fun r => if r.id = u.id then u else r), u)

/-- Modelled from the spec: `user.toObject()` of the absent `User` model,
the stored fields of the record. -/
def toObject (u : User) : List (String × JsVal) :=
  [("_id", .num u.id), ("username", .str u.username), ("password", .str u.password),
   ("profession", .str u.profession)] ++
  (match u.companyName with | some c => [("companyName", .str c)] | none => []) ++
  [("addressLine1", .str u.addressLine1), ("country", .str u.country),
   ("state", .str u.state), ("city", .str u.city),
   ("subscriptionPlan", .str u.subscriptionPlan), ("newsletter", .bool u.newsletter),
   ("gender", .str u.gender)] ++
  (match u.customGender with | some c => [("customGender", .str c)] | none => []) ++
  [("profilePhoto", match u.profilePhoto with | some p => .str p | none => .null),
   ("createdAt", .num u.createdAt), ("updatedAt", .num u.updatedAt)]

/-- The keys a serialised record can carry. -/
def schemaKeys : List String :=
  ["_id", "username", "password", "profession", "companyName", "addressLine1", "country",
   "state", "city", "subscriptionPlan", "newsletter", "gender", "customGender",
   "profilePhoto", "createdAt", "updatedAt"]

/-- The statement `delete obj[key]`. -/
def deleteKey {α : Type} (obj : List (String × α)) (key : String) : List (String × α) :=
  obj.filter (fun kv => kv.1 != key)

/-- The two lines `const userResponse = user.toObject(); delete userResponse.password`. -/
def userResponse (u : User) : List (String × JsVal) :=
  deleteKey (toObject u) "password"

/-! ## The file store and multer -/

/-- The call `fs.existsSync(path)`. -/
def existsSync (fs : FileStore) (path : String) : Bool := fs.contains path

/-- The call `fs.unlinkSync(path)`; `none` is the error thrown for a missing file. -/
def unlinkSync (fs : FileStore) (path : String) : Option FileStore :=
  if fs.contains path then some (fs.filter (fun p => p != path)) else none

/-- The write of an uploaded file by the disk storage of multer. -/
def writeFile (fs : FileStore) (path : String) : FileStore :=
  path :: fs.filter (fun p => p != path)

/-- A file part of a multipart request. -/
structure Upload where
  originalname : String
  mimetype : String
  size : Nat
deriving DecidableEq, Repr

/-- The `req.file` multer leaves for the handler. -/
structure File where
  filename : String
  path : String
deriving DecidableEq, Repr

/-- The function `path.extname`: the last dot of the base name and what
follows it, unless that dot starts the base name, there is none, or the base
name is `..`. -/
def extname (name : String) : String :=
  let base := (name.toList.reverse.takeWhile (fun c => c != (Char.ofNat 47))).reverse
  let ext := (base.reverse.takeWhile (fun c => c != (Char.ofNat 46))).reverse
  if base = [Char.ofNat 46, Char.ofNat 46] then ""
  else if ext.length + 1 < base.length then String.mk ((Char.ofNat 46) :: ext)
  else ""

/-- The `fileFilter` of the upload; an error carries its message. -/
def fileFilter (file : Upload) : Except String Bool :=
  if file.mimetype = "image/jpeg" ∨ file.mimetype = "image/png" then
    .ok true
  else
    .error "Only JPG and PNG files are allowed"

/-- The `filename` callback of the disk storage. -/
def storageFilename (env : Env) (file : Upload) : String :=
  let uniqueSuffix := toString env.now ++ "-" ++ toString env.random
  let ext := extname file.originalname
  "profile-" ++ uniqueSuffix ++ ext

/-- The middleware `upload.single('profilePhoto')`: filter, then store under the uploads
directory unless the file exceeds `limits.fileSize`; an error is passed on
to the error middleware and leaves no file behind. -/
def uploadSingle (env : Env) (fs : FileStore) (upload : Option Upload) :
    Except String (FileStore × Option File) :=
  match upload with
  | none => .ok (fs, none)
  | some file =>
    match fileFilter file with
    | .error e => .error e
    | .ok false => .ok (fs, none)
    | .ok true =>
      if file.size > 2 * 1024 * 1024 then .error "File too large"
      else
        let filename := storageFilename env file
        let path := "/uploads/" ++ filename
        .ok (writeFile fs path, some { filename := filename, path := path })

/-- What a request leaves behind: the file store, the repository, and the
response sent (`none` when an error escapes the handler). -/
structure Outcome where
  fs : FileStore
  repo : Repo
  response : Option Response
deriving DecidableEq, Repr

/-- The error middleware of `src/index.js`. -/
def errorMiddleware (fs : FileStore) (repo : Repo) (message : String) : Outcome :=
  let error := if message = "" then "Something went wrong on the server" else message
  { fs := fs, repo := repo, response := some { status := 500, body := .error error } }

/-! ## The validation rules of registration -/

/-- The text fields of a registration request (`req.body`). -/
structure RegisterBody where
  username : Option String
  password : Option String
  profession : Option String
  companyName : Option String
  addressLine1 : Option String
  country : Option String
  state : Option String
  city : Option String
  subscriptionPlan : Option String
  newsletter : Option String
  gender : Option String
  customGender : Option String
deriving DecidableEq, Repr

/-- An error of a field of the body. -/
def fieldError (path msg : String) (value : Option String) : ValidationError :=
  { path := some path, msg := msg, value := value }

/-- The chain `body('username').isLength({ min: 4, max: 20 }).matches(/^\S+$/).trim()`:
both validators see the value as submitted, the sanitizer runs after them. -/
def usernameChain (username : Option String) : List ValidationError :=
  let v := toStr username
  (if isLength v 4 (some 20) then [] else
    [fieldError "username" "Username must be between 4 and 20 characters" username]) ++
  (if matchesNoSpace v then [] else
    [fieldError "username" "Username cannot contain spaces" username])

/-- The sanitizer `trim()`: white space stripped at both ends. -/
def trim (s : String) : String :=
  String.mk ((s.toList.dropWhile isSpace).reverse.dropWhile isSpace).reverse

/-- A chain `body(path).isIn(options)`. -/
def isInChain (path msg : String) (options : List String) (value : Option String) :
    List ValidationError :=
  if options.contains (toStr value) then [] else [fieldError path msg value]

/-- A chain `body(path).not().isEmpty()`. -/
def notEmptyChain (path msg : String) (value : Option String) : List ValidationError :=
  if toStr value = "" then [fieldError path msg value] else []

/-- A chain `body(path).if(body(other).equals(trigger)).not().isEmpty()`: the
rest of the chain runs only when the condition holds. -/
def conditionalChain (path msg : String) (other : Option String) (trigger : String)
    (value : Option String) : List ValidationError :=
  if toStr other = trigger then notEmptyChain path msg value else []

/-- The rules `userValidation`, run in order; all errors are collected. -/
def userValidation (b : RegisterBody) : List ValidationError :=
  usernameChain b.username ++
  passwordChain b.password ++
  isInChain "profession" "Invalid profession selected"
    ["Student", "Developer", "Entrepreneur"] b.profession ++
  conditionalChain "companyName" "Company name is required for entrepreneurs"
    b.profession "Entrepreneur" b.companyName ++
  notEmptyChain "addressLine1" "Address is required" b.addressLine1 ++
  notEmptyChain "country" "Country is required" b.country ++
  notEmptyChain "state" "State is required" b.state ++
  notEmptyChain "city" "City is required" b.city ++
  isInChain "subscriptionPlan" "Invalid subscription plan"
    ["Basic", "Pro", "Enterprise"] b.subscriptionPlan ++
  isInChain "gender" "Invalid gender selected"
    ["Male", "Female", "Other", "Prefer not to say"] b.gender ++
  conditionalChain "customGender" "Custom gender is required when selecting \"Other\""
    b.gender "Other" b.customGender

/-! ## Handlers -/

/-- JavaScript truthiness of an optional string. -/
def truthy (v : Option String) : Bool :=
  match v with
  | some s => s != ""
  | none => false

/-- The statement `if (req.file) { fs.unlinkSync(req.file.path); }`; `none`
when `unlinkSync` throws. -/
def discardUpload (fs : FileStore) (file : Option File) : Option FileStore :=
  match file with
  | none => some fs
  | some f => unlinkSync fs f.path

/-- The `catch` block of a handler: discard the upload and answer 500. An
error thrown inside the block escapes the handler, and no response is sent. -/
def catchBlock (error : String) (fs : FileStore) (repo : Repo) (file : Option File) : Outcome :=
  match discardUpload fs file with
  | some fs1 => { fs := fs1, repo := repo, response := some { status := 500, body := .error error } }
  | none => { fs := fs, repo := repo, response := none }

/-- An early return inside the `try` block: discard the upload, then respond;
if discarding throws, the `catch` block runs. -/
def discardAndRespond (error : String) (fs : FileStore) (repo : Repo) (file : Option File)
    (response : Response) : Outcome :=
  match discardUpload fs file with
  | some fs1 => { fs := fs1, repo := repo, response := some response }
  | none => catchBlock error fs repo file

/-- The document `new User(...)` built by the registration handler. -/
def newUser (env : Env) (b : RegisterBody) (file : Option File) : User :=
  { id := env.newId
    username := trim (toStr b.username)
    password := toStr b.password
    profession := toStr b.profession
    companyName := b.companyName
    addressLine1 := toStr b.addressLine1
    country := toStr b.country
    state := toStr b.state
    city := toStr b.city
    subscriptionPlan := if truthy b.subscriptionPlan then toStr b.subscriptionPlan else "Basic"
    newsletter := b.newsletter == some "true"
    gender := toStr b.gender
    customGender := b.customGender
    profilePhoto := file.map (fun f => "/uploads/" ++ f.filename)
    createdAt := env.now
    updatedAt := env.now }

/-- The handler of `router.post('/register', ...)`, run after multer and the
validation chains. -/
def registerHandler (env : Env) (fs : FileStore) (repo : Repo) (b : RegisterBody)
    (file : Option File) : Outcome :=
  let error := "Server error during registration"
  let errors := userValidation b
  if !errors.isEmpty then
    discardAndRespond error fs repo file { status := 400, body := .errors errors }
  else
    let username := trim (toStr b.username)
    match findOne env repo username with
    | none => catchBlock error fs repo file
    | some (some _) =>
      discardAndRespond error fs repo file
        { status := 400,
          body := .errors [{ path := none, msg := "Username already taken", value := none }] }
    | some none =>
      let user := newUser env b file
      match save env repo { user := user, passwordModified := true, invalid := [] } true with
      | none => catchBlock error fs repo file
      | some (repo1, saved) =>
        { fs := fs, repo := repo1,
          response := some { status := 201,
                             body := .user "User registered successfully" (userResponse saved) } }

/-- The route `POST /register`: multer, then the handler; an error of multer
goes to the error middleware. -/
def registerRoute (env : Env) (fs : FileStore) (repo : Repo) (b : RegisterBody)
    (upload : Option Upload) : Outcome :=
  match uploadSingle env fs upload with
  | .error e => errorMiddleware fs repo e
  | .ok (fs1, file) => registerHandler env fs1 repo b file

/-- Modelled from the spec: the cast of a submitted string to the boolean
field `newsletter` of the absent `User` model. -/
def castBoolean (value : String) : Option Bool :=
  if value = "true" ∨ value = "1" ∨ value = "yes" then some true
  else if value = "false" ∨ value = "0" ∨ value = "no" then some false
  else none

/-- Modelled from the spec: the fields of the absent `User` model, each with
what an assignment to it does on a document loaded from the repository.
The username is immutable after creation: an assignment to it is ignored. A
value that does not cast to the type of its field marks the path invalid
until a later assignment to the same path casts, and an assignment to the
identifier marks the document invalid. -/
def fieldSetters (env : Env) : List (String × (Doc → String → Doc)) :=
  [("username", fun doc _ => doc),
   ("password", fun doc value =>
      { doc with user := { doc.user with password := value }, passwordModified := true }),
   ("profession", fun doc value => { doc with user := { doc.user with profession := value } }),
   ("companyName", fun doc value =>
      { doc with user := { doc.user with companyName := some value } }),
   ("addressLine1", fun doc value =>
      { doc with user := { doc.user with addressLine1 := value } }),
   ("country", fun doc value => { doc with user := { doc.user with country := value } }),
   ("state", fun doc value => { doc with user := { doc.user with state := value } }),
   ("city", fun doc value => { doc with user := { doc.user with city := value } }),
   ("subscriptionPlan", fun doc value =>
      { doc with user := { doc.user with subscriptionPlan := value } }),
   ("newsletter", fun doc value =>
      match castBoolean value with
      | some b => markValid { doc with user := { doc.user with newsletter := b } } "newsletter"
      | none => markInvalid doc "newsletter"),
   ("gender", fun doc value => { doc with user := { doc.user with gender := value } }),
   ("customGender", fun doc value =>
      { doc with user := { doc.user with customGender := some value } }),
   ("profilePhoto", fun doc value =>
      { doc with user := { doc.user with profilePhoto := some value } }),
   ("createdAt", fun doc value =>
      match env.castDate value with
      | some t => markValid { doc with user := { doc.user with createdAt := t } } "createdAt"
      | none => markInvalid doc "createdAt"),
   ("updatedAt", fun doc value =>
      match env.castDate value with
      | some t => markValid { doc with user := { doc.user with updatedAt := t } } "updatedAt"
      | none => markInvalid doc "updatedAt"),
   ("_id", fun doc _ => markInvalid doc "_id")]

/-- Modelled from the spec: the assignment `user[key] = value` on a document
of the absent `User` model. A key that names a field of the record sets it;
any other key is not part of the record. -/
def setField (env : Env) (doc : Doc) (key value : String) : Doc :=
  match (fieldSetters env).lookup key with
  | some assign => assign doc value
  | none => doc

/-- How the password block of the update handler ends. -/
inductive PasswordStep where
  | threw
  | mismatch
  | proceed (doc : Doc) (updateData : List (String × String))

/-- The block `if (updateData.newPassword) { ... }`. -/
def updatePassword (env : Env) (doc : Doc) (updateData : List (String × String)) :
    PasswordStep :=
  if truthy (updateData.lookup "newPassword") then
    match env.comparePassword (updateData.lookup "currentPassword") doc.user.password with
    | none => .threw
    | some false => .mismatch
    | some true =>
      let doc := setField env doc "password" (toStr (updateData.lookup "newPassword"))
      let updateData := deleteKey updateData "currentPassword"
      let updateData := deleteKey updateData "newPassword"
      .proceed doc updateData
  else .proceed doc updateData

/-- The block `if (req.file) { ... }`: the old photo file is unlinked when
the record has a reference and the file exists, then the reference is set
to the new file. -/
def updatePhoto (env : Env) (fs : FileStore) (doc : Doc) (file : Option File) :
    FileStore × Doc :=
  match file with
  | none => (fs, doc)
  | some f =>
    let fs1 :=
      if truthy doc.user.profilePhoto then
        let oldPhotoPath := toStr doc.user.profilePhoto
        if existsSync fs oldPhotoPath then (unlinkSync fs oldPhotoPath).getD fs else fs
      else fs
    (fs1, setField env doc "profilePhoto" ("/uploads/" ++ f.filename))

/-- The loop `Object.keys(updateData).forEach(key => ...)`. -/
def mergeFields (env : Env) (doc : Doc) (updateData : List (String × String)) : Doc :=
  (updateData.map Prod.fst).foldl
    (fun doc key =>
      if key != "profilePhoto" && key != "password" then
        match updateData.lookup key with
        | some value => setField env doc key value
        | none => doc
      else doc)
    doc

/-- The handler of `router.put('/:username', ...)`, run after multer. -/
def updateHandler (env : Env) (fs : FileStore) (repo : Repo) (username : String)
    (body : List (String × String)) (file : Option File) : Outcome :=
  let error := "Server error during profile update"
  let updateData := body
  match findOne env repo username with
  | none => catchBlock error fs repo file
  | some none =>
    discardAndRespond error fs repo file { status := 404, body := .error "User not found" }
  | some (some user) =>
    match updatePassword env { user := user, passwordModified := false, invalid := [] }
        updateData with
    | .threw => catchBlock error fs repo file
    | .mismatch =>
      discardAndRespond error fs repo file
        { status := 400, body := .error "Current password is incorrect" }
    | .proceed doc updateData =>
      let (fs1, doc) := updatePhoto env fs doc file
      let doc := mergeFields env doc updateData
      let doc := markValid { doc with user := { doc.user with updatedAt := env.now } } "updatedAt"
      match save env repo doc false with
      | none => catchBlock error fs1 repo file
      | some (repo1, saved) =>
        { fs := fs1, repo := repo1,
          response := some { status := 200,
                             body := .user "Profile updated successfully" (userResponse saved) } }

/-- The route `PUT /:username`: multer, then the handler. -/
def updateRoute (env : Env) (fs : FileStore) (repo : Repo) (username : String)
    (body : List (String × String)) (upload : Option Upload) : Outcome :=
  match uploadSingle env fs upload with
  | .error e => errorMiddleware fs repo e
  | .ok (fs1, file) => updateHandler env fs1 repo username body file

/-! ## The strength report as the specification words it -/

/-- The score in the words of the specification: one point for each of
length at least 8, length at least 12, a digit, a lowercase letter, an
uppercase letter, a character that is neither a letter nor a digit. -/
def specScore (p : String) : Nat :=
  (if jsLength p ≥ 8 then 1 else 0) + (if jsLength p ≥ 12 then 1 else 0) +
  (if hasDigit p then 1 else 0) + (if hasLower p then 1 else 0) +
  (if hasUpper p then 1 else 0) + (if hasNonAlnum p then 1 else 0)

/-- The level in the words of the specification: strong from 6, medium from
4, weak below. -/
def specStrength (score : Nat) : String :=
  if score ≥ 6 then "strong" else if score ≥ 4 then "medium" else "weak"

/-- The file store once the upload of the request has been discarded. -/
def withoutUpload (fs : FileStore) (file : Option File) : FileStore :=
  match file with
  | none => fs
  | some f => fs.filter (fun p => p != f.path)

/-- The upload handed to a handler, if any, is a file of the store. -/
def Staged (fs : FileStore) (file : Option File) : Prop :=
  ∀ f, file = some f → f.path ∈ fs

/-- The record the registration handler stores on success. -/
def registeredUser (env : Env) (b : RegisterBody) (file : Option File) : User :=
  { newUser env b file with password := env.hash (newUser env b file).password }

/-- The status of the response of a request, if one was sent. -/
def Outcome.status (o : Outcome) : Option Nat := o.response.map (fun r => r.status)

/-- The document the update handler hands to `save`: photo block, merge
loop, then the refreshed `updatedAt`. -/
def updatedDoc (env : Env) (fs : FileStore) (doc : Doc) (updateData : List (String × String))
    (file : Option File) : Doc :=
  let merged := mergeFields env (updatePhoto env fs doc file).2 updateData
  markValid { merged with user := { merged.user with updatedAt := env.now } } "updatedAt"

/-- The parts of a record the generic merge must not touch, with the
identifier of the record. -/
def credentialAndPhoto (u : User) : Nat × String × Option String :=
  (u.id, u.password, u.profilePhoto)

/-! ## Sample data -/

/-- An environment without faults: clock 7, random 3, a tagging hash. -/
def sampleEnv : Env :=
  { now := 7
    random := 3
    newId := 2
    hash := fun s => "hash:" ++ s
    comparePassword := fun candidate stored =>
      match candidate with
      | some c => some (stored == "hash:" ++ c)
      | none => none
    findOneFails := false
    saveFails := false
    castDate := fun _ => none }

/-- A registration body that passes every rule. -/
def sampleBody : RegisterBody :=
  { username := some "alice"
    password := some "secret12!"
    profession := some "Developer"
    companyName := none
    addressLine1 := some "1 Main Street"
    country := some "US"
    state := some "CA"
    city := some "LA"
    subscriptionPlan := some "Pro"
    newsletter := some "true"
    gender := some "Female"
    customGender := none }

/-- A PNG upload below the size limit. -/
def samplePng : Upload := { originalname := "me.png", mimetype := "image/png", size := 1000 }

/-- A GIF upload. -/
def sampleGif : Upload := { originalname := "me.gif", mimetype := "image/gif", size := 1000 }

/-- A username of eleven characters outside the Basic Multilingual Plane
(U+1F600): 22 UTF-16 code units, 11 for `isLength`. -/
def emojiUsername : String := String.mk (List.replicate 11 (Char.ofNat 128512))

/-- A username of twenty letters `a` followed by the variation selector
U+FE0F: 21 characters and 21 UTF-16 code units, 20 for `isLength`. -/
def selectorUsername : String :=
  String.mk (List.replicate 20 (Char.ofNat 97) ++ [Char.ofNat 65039])

/-- A stored record with a photo. -/
def sampleUser : User :=
  { id := 1
    username := "alice"
    password := "hash:secret12!"
    profession := "Developer"
    companyName := none
    addressLine1 := "1 Main Street"
    country := "US"
    state := "CA"
    city := "LA"
    subscriptionPlan := "Pro"
    newsletter := true
    gender := "Female"
    customGender := none
    profilePhoto := some "/uploads/profile-1-1.png"
    createdAt := 1
    updatedAt := 1 }

/-! ## Theorems -/

/-! ### Lengths -/

theorem sum_utf16Units (l : List Char) :
    (l.map utf16Units).sum = l.length + (l.filter (fun c => decide (65536 ≤ c.toNat))).length := by
  induction l with
  | nil => rfl
  | cons c l ih =>
    by_cases hc : c.toNat < 65536
    · have hd : decide (65536 ≤ c.toNat) = false := by simp; omega
      simp only [List.map_cons, List.sum_cons, List.length_cons, List.filter_cons, hd, ih,
        utf16Units, hc, if_true, Bool.false_eq_true, if_false]
      omega
    · have hd : decide (65536 ≤ c.toNat) = true := by simp; omega
      simp only [List.map_cons, List.sum_cons, List.length_cons, List.filter_cons, hd, ih,
        utf16Units, hc, if_true, if_false]
      omega

/-- The length `isLength` measures is the number of characters that are not
variation selectors. -/
theorem validatorLength_eq (s : String) :
    validatorLength s = s.length - (s.toList.filter isPresentationSelector).length := by
  unfold validatorLength jsLength
  rw [sum_utf16Units]
  have : s.length = s.toList.length := rfl
  omega

/-- The JavaScript length counts every character once, and those outside the
Basic Multilingual Plane twice. -/
theorem jsLength_eq (s : String) :
    jsLength s = s.length + (s.toList.filter (fun c => decide (65536 ≤ c.toNat))).length := by
  unfold jsLength
  rw [sum_utf16Units]
  rfl

/-- A password the validation accepts has at least eight UTF-16 code units. -/
theorem validatorLength_le_jsLength (s : String) : validatorLength s ≤ jsLength s := by
  unfold validatorLength
  omega

/-! ### The file store -/

theorem mem_writeFile (fs : FileStore) (path : String) : path ∈ writeFile fs path := by
  simp [writeFile]

theorem mem_writeFile_of_mem (fs : FileStore) (path q : String) (h : q ∈ fs) :
    q ∈ writeFile fs path := by
  by_cases hq : q = path
  · subst hq; exact mem_writeFile fs q
  · simp [writeFile, h, hq]

theorem not_mem_withoutUpload (fs : FileStore) (f : File) :
    f.path ∉ withoutUpload fs (some f) := by
  simp [withoutUpload]

theorem discardUpload_staged (fs : FileStore) (file : Option File) (h : Staged fs file) :
    discardUpload fs file = some (withoutUpload fs file) := by
  cases file with
  | none => rfl
  | some f =>
    have hm : f.path ∈ fs := h f rfl
    simp [discardUpload, unlinkSync, withoutUpload, hm]

theorem catchBlock_staged (error : String) (fs : FileStore) (repo : Repo) (file : Option File)
    (h : Staged fs file) :
    catchBlock error fs repo file =
      { fs := withoutUpload fs file, repo := repo,
        response := some { status := 500, body := .error error } } := by
  simp [catchBlock, discardUpload_staged fs file h]

theorem discardAndRespond_staged (error : String) (fs : FileStore) (repo : Repo)
    (file : Option File) (response : Response) (h : Staged fs file) :
    discardAndRespond error fs repo file response =
      { fs := withoutUpload fs file, repo := repo, response := some response } := by
  simp [discardAndRespond, discardUpload_staged fs file h]

theorem uploadSingle_ok (env : Env) (fs fs1 : FileStore) (upload : Option Upload)
    (file : Option File) (h : uploadSingle env fs upload = .ok (fs1, file)) :
    (file = none ∧ fs1 = fs) ∨
      (∃ f, file = some f ∧ fs1 = writeFile fs f.path ∧ f.path = "/uploads/" ++ f.filename) := by
  unfold uploadSingle at h
  cases upload with
  | none =>
    simp only [Except.ok.injEq, Prod.mk.injEq] at h
    exact Or.inl ⟨h.2.symm, h.1.symm⟩
  | some u =>
    simp only at h
    cases hf : fileFilter u with
    | error e => rw [hf] at h; cases h
    | ok ok =>
      rw [hf] at h
      cases ok with
      | false =>
        simp only [Except.ok.injEq, Prod.mk.injEq] at h
        exact Or.inl ⟨h.2.symm, h.1.symm⟩
      | true =>
        simp only at h
        split at h
        · cases h
        · simp only [Except.ok.injEq, Prod.mk.injEq] at h
          refine Or.inr ⟨_, h.2.symm, h.1.symm, rfl⟩

theorem uploadSingle_staged (env : Env) (fs fs1 : FileStore) (upload : Option Upload)
    (file : Option File) (h : uploadSingle env fs upload = .ok (fs1, file)) :
    Staged fs1 file := by
  intro f hf
  rcases uploadSingle_ok env fs fs1 upload file h with ⟨h0, _⟩ | ⟨g, hg, hfs, _⟩
  · rw [h0] at hf; cases hf
  · simp only [hg, Option.some.injEq] at hf
    subst hf
    rw [hfs]
    exact mem_writeFile fs _

/-! ### The registration handler, branch by branch -/

theorem isEmpty_eq_false_of_ne_nil {α : Type} (l : List α) (h : l ≠ []) : l.isEmpty = false := by
  cases l with
  | nil => exact absurd rfl h
  | cons a l => rfl

theorem registerHandler_invalid (env : Env) (fs : FileStore) (repo : Repo) (b : RegisterBody)
    (file : Option File) (hst : Staged fs file) (hv : userValidation b ≠ []) :
    registerHandler env fs repo b file =
      { fs := withoutUpload fs file, repo := repo,
        response := some { status := 400, body := .errors (userValidation b) } } := by
  unfold registerHandler
  simp [isEmpty_eq_false_of_ne_nil _ hv, discardAndRespond_staged _ fs repo file _ hst]

theorem registerHandler_findOneFails (env : Env) (fs : FileStore) (repo : Repo)
    (b : RegisterBody) (file : Option File) (hst : Staged fs file)
    (hv : userValidation b = []) (hf : env.findOneFails = true) :
    registerHandler env fs repo b file =
      { fs := withoutUpload fs file, repo := repo,
        response := some { status := 500, body := .error "Server error during registration" } } := by
  unfold registerHandler
  simp [hv, findOne, hf, catchBlock_staged _ fs repo file hst]

theorem registerHandler_taken (env : Env) (fs : FileStore) (repo : Repo)
    (b : RegisterBody) (file : Option File) (hst : Staged fs file)
    (hv : userValidation b = []) (hf : env.findOneFails = false) (r : User)
    (hr : repo.find? (fun u => u.username == trim (toStr b.username)) = some r) :
    registerHandler env fs repo b file =
      { fs := withoutUpload fs file, repo := repo,
        response := some
          { status := 400
            body := .errors [{ path := none, msg := "Username already taken", value := none }] } } := by
  unfold registerHandler
  simp [hv, findOne, hf, hr, discardAndRespond_staged _ fs repo file _ hst]

theorem registerHandler_saveFails (env : Env) (fs : FileStore) (repo : Repo)
    (b : RegisterBody) (file : Option File) (hst : Staged fs file)
    (hv : userValidation b = []) (hf : env.findOneFails = false)
    (hr : repo.find? (fun u => u.username == trim (toStr b.username)) = none)
    (hs : env.saveFails = true) :
    registerHandler env fs repo b file =
      { fs := withoutUpload fs file, repo := repo,
        response := some { status := 500, body := .error "Server error during registration" } } := by
  unfold registerHandler
  simp [hv, findOne, hf, hr, save, hs, catchBlock_staged _ fs repo file hst]

theorem registerHandler_success (env : Env) (fs : FileStore) (repo : Repo)
    (b : RegisterBody) (file : Option File)
    (hv : userValidation b = []) (hf : env.findOneFails = false)
    (hr : repo.find? (fun u => u.username == trim (toStr b.username)) = none)
    (hs : env.saveFails = false) :
    registerHandler env fs repo b file =
      { fs := fs, repo := repo ++ [registeredUser env b file],
        response := some
          { status := 201
            body := .user "User registered successfully"
              (userResponse (registeredUser env b file)) } } := by
  unfold registerHandler
  simp [hv, findOne, hf, hr, save, hs, registeredUser]

theorem passwordScore_eq_specScore (p : String) : passwordScore p = specScore p := by
  unfold passwordScore specScore
  by_cases h1 : jsLength p ≥ 8 <;> by_cases h2 : jsLength p ≥ 12 <;>
    cases hasDigit p <;> cases hasLower p <;> cases hasUpper p <;> cases hasNonAlnum p <;>
    simp [h1, h2]

theorem strengthLevel_eq_specStrength (n : Nat) : strengthLevel n = specStrength n := by
  unfold strengthLevel specStrength
  by_cases h6 : n ≥ 6
  · simp [h6]
  · by_cases h4 : n ≥ 4 <;> simp [h6, h4]

theorem passwordChain_nil_iff (v : Option String) :
    passwordChain v = [] ↔ (isLength (toStr v) 8 none && matchesDigitAndSpecial (toStr v)) = true := by
  unfold passwordChain
  by_cases h1 : isLength (toStr v) 8 none = true <;>
    by_cases h2 : matchesDigitAndSpecial (toStr v) = true <;> simp [h1, h2]

/-- C10 (as the code has it): a password that fails the validation of
`/check-password` is answered 400 with the list of violations and gets no
score or strength; a password that passes is answered 200 with `valid = true`,
the score counting the six conditions and the strength derived from it. -/
theorem checkPassword_report (p : String) :
    checkPassword (some p) =
      (if (isLength p 8 none && matchesDigitAndSpecial p) = true then
        { status := 200, body := .strength true (specStrength (specScore p)) (specScore p) }
      else
        { status := 400, body := .errors (passwordChain (some p)) }) ∧
    checkPassword (some "Abcdef12!@#$") = { status := 200, body := .strength true "strong" 6 } := by
  refine ⟨?_, by decide⟩
  have hnil := passwordChain_nil_iff (some p)
  simp only [toStr, Option.getD_some] at hnil
  unfold checkPassword
  by_cases h : (isLength p 8 none && matchesDigitAndSpecial p) = true
  · have h0 : passwordChain (some p) = [] := hnil.mpr h
    simp [h0, h, toStr, passwordScore_eq_specScore, strengthLevel_eq_specStrength]
  · have h0 : passwordChain (some p) ≠ [] := fun hc => h (hnil.mp hc)
    have h1 : (passwordChain (some p)).isEmpty = false := by
      cases hq : passwordChain (some p) with
      | nil => exact absurd hq h0
      | cons a l => rfl
    simp [h1, h]

/-- C10 (counterexample): `check-password("abc")` is answered 400 with two
violations; it reports neither a score nor the strength weak. -/
theorem checkPassword_abc_rejected :
    checkPassword (some "abc") =
      { status := 400,
        body := .errors
          [fieldError "password" "Password must be at least 8 characters" (some "abc"),
           fieldError "password"
             "Password must contain at least one number and one special character"
             (some "abc")] } ∧
    checkPassword (some "abc") ≠
      { status := 200, body := .strength true (specStrength (specScore "abc")) (specScore "abc") } := by
  decide

/-! ### Registration -/

theorem registerRoute_ok (env : Env) (fs fs1 : FileStore) (repo : Repo) (b : RegisterBody)
    (upload : Option Upload) (file : Option File)
    (h : uploadSingle env fs upload = .ok (fs1, file)) :
    registerRoute env fs repo b upload = registerHandler env fs1 repo b file := by
  simp [registerRoute, h]

theorem usernameChain_malformed (username : Option String)
    (hbad : validatorLength (toStr username) < 4 ∨ 20 < validatorLength (toStr username) ∨
      (toStr username).toList.any isSpace = true) :
    ∃ e ∈ usernameChain username, e.path = some "username" := by
  unfold usernameChain
  by_cases hl : isLength (toStr username) 4 (some 20) = true
  · have hs : (toStr username).toList.any isSpace = true := by
      rcases hbad with h | h | h
      · simp [isLength] at hl; omega
      · simp [isLength] at hl; omega
      · exact h
    have hm : matchesNoSpace (toStr username) = false := by
      obtain ⟨c, hc, hcs⟩ := List.any_eq_true.mp hs
      unfold matchesNoSpace
      have : (toStr username).toList.all (fun c => !isSpace c) = false := by
        rw [List.all_eq_false]
        exact ⟨c, hc, by simp [hcs]⟩
      rw [this, Bool.and_false]
    exact ⟨fieldError "username" "Username cannot contain spaces" username,
      by simp [hl, hm], rfl⟩
  · exact ⟨fieldError "username" "Username must be between 4 and 20 characters" username,
      by simp [hl], rfl⟩

/-- C5 (as the code has it): a registration that reaches the validation rules
(no upload, or an upload multer accepted) with a username whose length as
`isLength` measures it is below 4 or above 20, or which contains a
white-space character, is answered 400 with a violation list that names
`username`, and the repository is left as it was, whatever the other fields
are. -/
theorem register_rejects_malformed_username (env : Env) (fs fs1 : FileStore) (repo : Repo)
    (b : RegisterBody) (upload : Option Upload) (file : Option File)
    (hup : uploadSingle env fs upload = .ok (fs1, file))
    (hbad : validatorLength (toStr b.username) < 4 ∨ 20 < validatorLength (toStr b.username) ∨
      (toStr b.username).toList.any isSpace = true) :
    ∃ errors,
      (registerRoute env fs repo b upload).response =
          some { status := 400, body := .errors errors } ∧
      (∃ e ∈ errors, e.path = some "username") ∧
      (registerRoute env fs repo b upload).repo = repo := by
  obtain ⟨e, he, hpath⟩ := usernameChain_malformed b.username hbad
  have hmem : e ∈ userValidation b := by
    unfold userValidation
    simp only [List.append_assoc, List.mem_append]
    exact Or.inl he
  have hv : userValidation b ≠ [] := List.ne_nil_of_mem hmem
  rw [registerRoute_ok env fs fs1 repo b upload file hup,
    registerHandler_invalid env fs1 repo b file (uploadSingle_staged env fs fs1 upload file hup) hv]
  exact ⟨userValidation b, rfl, ⟨e, hmem, hpath⟩, rfl⟩

/-- Witness of C5: the username `"a b"` (too short, and with a space), sent
with an accepted PNG upload. -/
theorem register_rejects_malformed_username_witness :
    uploadSingle sampleEnv [] (some samplePng) =
        .ok (["/uploads/profile-7-3.png"],
          some { filename := "profile-7-3.png", path := "/uploads/profile-7-3.png" }) ∧
    ∃ errors,
      (registerRoute sampleEnv [] [] { sampleBody with username := some "a b" }
          (some samplePng)).response = some { status := 400, body := .errors errors } ∧
      (∃ e ∈ errors, e.path = some "username") ∧
      (registerRoute sampleEnv [] [] { sampleBody with username := some "a b" }
          (some samplePng)).repo = [] :=
  ⟨rfl, register_rejects_malformed_username sampleEnv [] _ [] _ (some samplePng) _ rfl
    (Or.inl (by decide))⟩

/-- C5 (counterexample): three usernames the claim covers that are not
answered 400. Eleven emoji have `.length` 22 and twenty letters with a
variation selector have 21 characters, yet `isLength` measures 11 and 20, so
both registrations are answered 201 and write a record; the username `"a b"`
sent with a GIF is answered 500 by the error middleware before the rules
run. -/
theorem register_malformed_username_not_rejected :
    (jsLength emojiUsername = 22 ∧ validatorLength emojiUsername = 11 ∧
      (registerRoute sampleEnv [] [] { sampleBody with username := some emojiUsername }
        none).status = some 201 ∧
      (registerRoute sampleEnv [] [] { sampleBody with username := some emojiUsername }
        none).repo.map (fun r => r.username) = [emojiUsername]) ∧
    (selectorUsername.length = 21 ∧ jsLength selectorUsername = 21 ∧
      validatorLength selectorUsername = 20 ∧
      (registerRoute sampleEnv [] [] { sampleBody with username := some selectorUsername }
        none).status = some 201 ∧
      (registerRoute sampleEnv [] [] { sampleBody with username := some selectorUsername }
        none).repo.map (fun r => r.username) = [selectorUsername]) ∧
    (registerRoute sampleEnv [] [] { sampleBody with username := some "a b" }
      (some sampleGif)).status = some 500 := by
  decide

/-- C2: when multer has staged the upload of a registration request and the
request fails (a rule is violated, the username is taken, the lookup or the
save fails), a response is sent with status 400 or 500, the staged file is
no longer in the file store, and the repository is the one before the
request. -/
theorem register_failure_discards_staged_file (env : Env) (fs fs1 : FileStore) (repo : Repo)
    (b : RegisterBody) (u : Upload) (f : File)
    (hup : uploadSingle env fs (some u) = .ok (fs1, some f))
    (hfail : userValidation b ≠ [] ∨ (∃ r ∈ repo, r.username = trim (toStr b.username)) ∨
      env.findOneFails = true ∨ env.saveFails = true) :
    f.path ∈ fs1 ∧
    ∃ resp, (registerRoute env fs repo b (some u)).response = some resp ∧
      (resp.status = 400 ∨ resp.status = 500) ∧
      f.path ∉ (registerRoute env fs repo b (some u)).fs ∧
      (registerRoute env fs repo b (some u)).repo = repo := by
  have hst : Staged fs1 (some f) := uploadSingle_staged env fs fs1 (some u) (some f) hup
  refine ⟨hst f rfl, ?_⟩
  rw [registerRoute_ok env fs fs1 repo b (some u) (some f) hup]
  by_cases hv : userValidation b = []
  · cases hf : env.findOneFails with
    | true =>
      rw [registerHandler_findOneFails env fs1 repo b (some f) hst hv hf]
      exact ⟨_, rfl, Or.inr rfl, not_mem_withoutUpload fs1 f, rfl⟩
    | false =>
      cases hr : repo.find? (fun u => u.username == trim (toStr b.username)) with
      | some r =>
        rw [registerHandler_taken env fs1 repo b (some f) hst hv hf r hr]
        exact ⟨_, rfl, Or.inl rfl, not_mem_withoutUpload fs1 f, rfl⟩
      | none =>
        cases hs : env.saveFails with
        | true =>
          rw [registerHandler_saveFails env fs1 repo b (some f) hst hv hf hr hs]
          exact ⟨_, rfl, Or.inr rfl, not_mem_withoutUpload fs1 f, rfl⟩
        | false =>
          exfalso
          rcases hfail with h | ⟨r, hrm, hru⟩ | h | h
          · exact h hv
          · have := List.find?_eq_none.mp hr r hrm
            simp [hru] at this
          · simp [hf] at h
          · simp [hs] at h
  · rw [registerHandler_invalid env fs1 repo b (some f) hst hv]
    exact ⟨_, rfl, Or.inl rfl, not_mem_withoutUpload fs1 f, rfl⟩

/-- Witness of C2: a valid body with an accepted PNG upload, and a save that
fails. -/
theorem register_failure_discards_staged_file_witness :
    uploadSingle { sampleEnv with saveFails := true } [] (some samplePng) =
        .ok (["/uploads/profile-7-3.png"],
          some { filename := "profile-7-3.png", path := "/uploads/profile-7-3.png" }) ∧
    "/uploads/profile-7-3.png" ∈ ["/uploads/profile-7-3.png"] ∧
    ∃ resp,
      (registerRoute { sampleEnv with saveFails := true } [] [sampleUser]
          { sampleBody with username := some "carol" } (some samplePng)).response = some resp ∧
      (resp.status = 400 ∨ resp.status = 500) ∧
      "/uploads/profile-7-3.png" ∉
        (registerRoute { sampleEnv with saveFails := true } [] [sampleUser]
          { sampleBody with username := some "carol" } (some samplePng)).fs ∧
      (registerRoute { sampleEnv with saveFails := true } [] [sampleUser]
          { sampleBody with username := some "carol" } (some samplePng)).repo = [sampleUser] :=
  ⟨rfl, register_failure_discards_staged_file { sampleEnv with saveFails := true } [] _
    [sampleUser] { sampleBody with username := some "carol" } samplePng
    { filename := "profile-7-3.png", path := "/uploads/profile-7-3.png" } rfl
    (Or.inr (Or.inr (Or.inr rfl)))⟩

/-- C7 (as the code has it): an upload whose declared MIME type is neither
`image/jpeg` nor `image/png` makes multer pass an error to the error
middleware, which answers 500 with the message of the filter; the handler
does not run, and the file store and the repository are left as they were. -/
theorem register_rejected_upload (env : Env) (fs : FileStore) (repo : Repo) (b : RegisterBody)
    (u : Upload) (hmime : u.mimetype ≠ "image/jpeg" ∧ u.mimetype ≠ "image/png") :
    registerRoute env fs repo b (some u) =
      { fs := fs, repo := repo,
        response := some { status := 500, body := .error "Only JPG and PNG files are allowed" } } := by
  simp [registerRoute, uploadSingle, fileFilter, hmime.1, hmime.2, errorMiddleware]

/-- Witness of C7: a valid body sent with a GIF. -/
theorem register_rejected_upload_witness :
    (sampleGif.mimetype ≠ "image/jpeg" ∧ sampleGif.mimetype ≠ "image/png") ∧
    registerRoute sampleEnv ["/uploads/profile-1-1.png"] [sampleUser] sampleBody (some sampleGif) =
      { fs := ["/uploads/profile-1-1.png"], repo := [sampleUser],
        response := some { status := 500, body := .error "Only JPG and PNG files are allowed" } } :=
  ⟨by decide, register_rejected_upload sampleEnv _ _ sampleBody sampleGif (by decide)⟩

/-- C7 (counterexample): a valid registration sent with a GIF is answered
with status 500, not with a 400 validation failure. -/
theorem register_gif_status_500 :
    (registerRoute sampleEnv [] [] sampleBody (some sampleGif)).response =
      some { status := 500, body := .error "Only JPG and PNG files are allowed" } ∧
    (registerRoute sampleEnv [] [] sampleBody (some sampleGif)).response.map (fun r => r.status)
      ≠ some 400 := by
  decide

/-! ### Conditional fields -/

theorem usernameChain_path (v : Option String) (e : ValidationError)
    (he : e ∈ usernameChain v) : e.path = some "username" := by
  unfold usernameChain at he
  simp only [List.mem_append] at he
  rcases he with he | he <;> split at he <;> simp [fieldError] at he <;> simp [he]

theorem passwordChain_path (v : Option String) (e : ValidationError)
    (he : e ∈ passwordChain v) : e.path = some "password" := by
  unfold passwordChain at he
  simp only [List.mem_append] at he
  rcases he with he | he <;> split at he <;> simp at he <;> simp [he]

theorem isInChain_path (path msg : String) (options : List String) (v : Option String)
    (e : ValidationError) (he : e ∈ isInChain path msg options v) : e.path = some path := by
  unfold isInChain at he
  split at he <;> simp [fieldError] at he
  simp [he]

theorem notEmptyChain_path (path msg : String) (v : Option String)
    (e : ValidationError) (he : e ∈ notEmptyChain path msg v) : e.path = some path := by
  unfold notEmptyChain at he
  split at he <;> simp [fieldError] at he
  simp [he]

theorem conditionalChain_mem (path msg : String) (other : Option String) (trigger : String)
    (v : Option String) (e : ValidationError) (he : e ∈ conditionalChain path msg other trigger v) :
    toStr other = trigger ∧ toStr v = "" ∧ e.path = some path := by
  unfold conditionalChain at he
  split at he
  · rename_i ht
    refine ⟨ht, ?_, notEmptyChain_path path msg v e he⟩
    unfold notEmptyChain at he
    split at he
    · assumption
    · simp at he
  · simp at he

theorem conditionalChain_triggered (path msg : String) (other : Option String)
    (trigger : String) (v : Option String) (ht : toStr other = trigger) (hv : toStr v = "") :
    conditionalChain path msg other trigger v = [fieldError path msg v] := by
  simp [conditionalChain, notEmptyChain, ht, hv]

theorem conditionalChain_skipped (path msg : String) (other : Option String)
    (trigger : String) (v : Option String) (ht : toStr other ≠ trigger) :
    conditionalChain path msg other trigger v = [] := by
  simp [conditionalChain, ht]

theorem companyName_violation_iff (c : RegisterBody) :
    (∃ e ∈ userValidation c, e.path = some "companyName") ↔
      (toStr c.profession = "Entrepreneur" ∧ toStr c.companyName = "") := by
  constructor
  · rintro ⟨e, he, hp⟩
    simp only [userValidation, List.mem_append] at he
    rcases he with (((((((((he | he) | he) | he) | he) | he) | he) | he) | he) | he) | he
    · have := usernameChain_path _ e he; simp [this] at hp
    · have := passwordChain_path _ e he; simp [this] at hp
    · have := isInChain_path _ _ _ _ e he; simp [this] at hp
    · exact ⟨(conditionalChain_mem _ _ _ _ _ e he).1, (conditionalChain_mem _ _ _ _ _ e he).2.1⟩
    · have := notEmptyChain_path _ _ _ e he; simp [this] at hp
    · have := notEmptyChain_path _ _ _ e he; simp [this] at hp
    · have := notEmptyChain_path _ _ _ e he; simp [this] at hp
    · have := notEmptyChain_path _ _ _ e he; simp [this] at hp
    · have := isInChain_path _ _ _ _ e he; simp [this] at hp
    · have := isInChain_path _ _ _ _ e he; simp [this] at hp
    · have := (conditionalChain_mem _ _ _ _ _ e he).2.2; simp [this] at hp
  · rintro ⟨hprof, hc⟩
    refine ⟨fieldError "companyName" "Company name is required for entrepreneurs" c.companyName,
      ?_, rfl⟩
    simp only [userValidation, List.mem_append]
    refine Or.inl (Or.inl (Or.inl (Or.inl (Or.inl (Or.inl (Or.inl (Or.inr ?_)))))))
    rw [conditionalChain_triggered _ _ _ _ _ hprof hc]
    exact List.mem_singleton.mpr rfl

theorem customGender_violation_iff (c : RegisterBody) :
    (∃ e ∈ userValidation c, e.path = some "customGender") ↔
      (toStr c.gender = "Other" ∧ toStr c.customGender = "") := by
  constructor
  · rintro ⟨e, he, hp⟩
    simp only [userValidation, List.mem_append] at he
    rcases he with (((((((((he | he) | he) | he) | he) | he) | he) | he) | he) | he) | he
    · have := usernameChain_path _ e he; simp [this] at hp
    · have := passwordChain_path _ e he; simp [this] at hp
    · have := isInChain_path _ _ _ _ e he; simp [this] at hp
    · have := (conditionalChain_mem _ _ _ _ _ e he).2.2; simp [this] at hp
    · have := notEmptyChain_path _ _ _ e he; simp [this] at hp
    · have := notEmptyChain_path _ _ _ e he; simp [this] at hp
    · have := notEmptyChain_path _ _ _ e he; simp [this] at hp
    · have := notEmptyChain_path _ _ _ e he; simp [this] at hp
    · have := isInChain_path _ _ _ _ e he; simp [this] at hp
    · have := isInChain_path _ _ _ _ e he; simp [this] at hp
    · exact ⟨(conditionalChain_mem _ _ _ _ _ e he).1, (conditionalChain_mem _ _ _ _ _ e he).2.1⟩
  · rintro ⟨hg, hc⟩
    refine ⟨fieldError "customGender" "Custom gender is required when selecting \"Other\""
      c.customGender, ?_, rfl⟩
    simp only [userValidation, List.mem_append]
    refine Or.inr ?_
    rw [conditionalChain_triggered _ _ _ _ _ hg hc]
    exact List.mem_singleton.mpr rfl

theorem registerRoute_status_invalid (env : Env) (fs fs1 : FileStore) (repo : Repo)
    (c : RegisterBody) (upload : Option Upload) (file : Option File)
    (hup : uploadSingle env fs upload = .ok (fs1, file)) (hv : userValidation c ≠ []) :
    (registerRoute env fs repo c upload).status = some 400 := by
  rw [registerRoute_ok env fs fs1 repo c upload file hup,
    registerHandler_invalid env fs1 repo c file (uploadSingle_staged env fs fs1 upload file hup) hv]
  rfl

theorem registerRoute_status_created (env : Env) (fs fs1 : FileStore) (repo : Repo)
    (c : RegisterBody) (upload : Option Upload) (file : Option File)
    (hup : uploadSingle env fs upload = .ok (fs1, file)) (hv : userValidation c = [])
    (hfree : ∀ r ∈ repo, r.username ≠ trim (toStr c.username))
    (hfind : env.findOneFails = false) (hsave : env.saveFails = false) :
    (registerRoute env fs repo c upload).status = some 201 := by
  have hr : repo.find? (fun u => u.username == trim (toStr c.username)) = none := by
    rw [List.find?_eq_none]
    intro r hrm
    simpa using hfree r hrm
  rw [registerRoute_ok env fs fs1 repo c upload file hup,
    registerHandler_success env fs1 repo c file hv hfind hr hsave]
  rfl

/-- C6: the rules report a violation on `companyName` exactly when
`profession` is `Entrepreneur` and `companyName` is empty, and on
`customGender` exactly when `gender` is `Other` and `customGender` is empty.
Hence, starting from a body whose fields are all valid, with the username
free and the datastore answering: `Entrepreneur` with an empty company name
is answered 400 and `Student` with an empty company name 201; `Other` with an
empty custom gender is answered 400 and `Male` 201 for every custom gender. -/
theorem conditional_field_rules (env : Env) (fs fs1 : FileStore) (repo : Repo)
    (b : RegisterBody) (upload : Option Upload) (file : Option File)
    (empty customGender : Option String)
    (hup : uploadSingle env fs upload = .ok (fs1, file))
    (hvalid : userValidation b = [])
    (hfree : ∀ r ∈ repo, r.username ≠ trim (toStr b.username))
    (hfind : env.findOneFails = false) (hsave : env.saveFails = false)
    (hempty : toStr empty = "") :
    (∀ c : RegisterBody, (∃ e ∈ userValidation c, e.path = some "companyName") ↔
      (toStr c.profession = "Entrepreneur" ∧ toStr c.companyName = "")) ∧
    (∀ c : RegisterBody, (∃ e ∈ userValidation c, e.path = some "customGender") ↔
      (toStr c.gender = "Other" ∧ toStr c.customGender = "")) ∧
    (registerRoute env fs repo
      { b with profession := some "Entrepreneur", companyName := empty } upload).status
        = some 400 ∧
    (registerRoute env fs repo
      { b with profession := some "Student", companyName := empty } upload).status
        = some 201 ∧
    (registerRoute env fs repo
      { b with gender := some "Other", customGender := empty } upload).status = some 400 ∧
    (registerRoute env fs repo
      { b with gender := some "Male", customGender := customGender } upload).status
        = some 201 := by
  simp only [userValidation, List.append_eq_nil] at hvalid
  obtain ⟨⟨⟨⟨⟨⟨⟨⟨⟨⟨h1, h2⟩, h3⟩, h4⟩, h5⟩, h6⟩, h7⟩, h8⟩, h9⟩, h10⟩, h11⟩ := hvalid
  refine ⟨companyName_violation_iff, customGender_violation_iff, ?_, ?_, ?_, ?_⟩
  · have hx := (companyName_violation_iff
      { b with profession := some "Entrepreneur", companyName := empty }).mpr ⟨rfl, hempty⟩
    obtain ⟨e, he, _⟩ := hx
    exact registerRoute_status_invalid env fs fs1 repo
      { b with profession := some "Entrepreneur", companyName := empty } upload file hup
      (List.ne_nil_of_mem he)
  · have hp : isInChain "profession" "Invalid profession selected"
        ["Student", "Developer", "Entrepreneur"] (some "Student") = [] := by decide
    have hc : conditionalChain "companyName" "Company name is required for entrepreneurs"
        (some "Student") "Entrepreneur" empty = [] :=
      conditionalChain_skipped _ _ _ _ _ (by decide)
    have hv : userValidation { b with profession := some "Student", companyName := empty }
        = [] := by
      simp only [userValidation, List.append_eq_nil]
      exact ⟨⟨⟨⟨⟨⟨⟨⟨⟨⟨h1, h2⟩, hp⟩, hc⟩, h5⟩, h6⟩, h7⟩, h8⟩, h9⟩, h10⟩, h11⟩
    exact registerRoute_status_created env fs fs1 repo
      { b with profession := some "Student", companyName := empty } upload file hup hv
      hfree hfind hsave
  · have hx := (customGender_violation_iff
      { b with gender := some "Other", customGender := empty }).mpr ⟨rfl, hempty⟩
    obtain ⟨e, he, _⟩ := hx
    exact registerRoute_status_invalid env fs fs1 repo
      { b with gender := some "Other", customGender := empty } upload file hup
      (List.ne_nil_of_mem he)
  · have hg : isInChain "gender" "Invalid gender selected"
        ["Male", "Female", "Other", "Prefer not to say"] (some "Male") = [] := by decide
    have hc : conditionalChain "customGender"
        "Custom gender is required when selecting \"Other\""
        (some "Male") "Other" customGender = [] :=
      conditionalChain_skipped _ _ _ _ _ (by decide)
    have hv : userValidation { b with gender := some "Male", customGender := customGender }
        = [] := by
      simp only [userValidation, List.append_eq_nil]
      exact ⟨⟨⟨⟨⟨⟨⟨⟨⟨⟨h1, h2⟩, h3⟩, h4⟩, h5⟩, h6⟩, h7⟩, h8⟩, h9⟩, hg⟩, hc⟩
    exact registerRoute_status_created env fs fs1 repo
      { b with gender := some "Male", customGender := customGender } upload file hup hv
      hfree hfind hsave

/-- Witness of C6: the sample body under the username `carol`, sent without
upload to a repository that holds `alice`. -/
theorem conditional_field_rules_witness :
    userValidation { sampleBody with username := some "carol" } = [] ∧
    (registerRoute sampleEnv [] [sampleUser]
      { sampleBody with username := some "carol", profession := some "Entrepreneur",
                        companyName := some "" } none).status = some 400 ∧
    (registerRoute sampleEnv [] [sampleUser]
      { sampleBody with username := some "carol", profession := some "Student",
                        companyName := some "" } none).status = some 201 ∧
    (registerRoute sampleEnv [] [sampleUser]
      { sampleBody with username := some "carol", gender := some "Other",
                        customGender := some "" } none).status = some 400 ∧
    (registerRoute sampleEnv [] [sampleUser]
      { sampleBody with username := some "carol", gender := some "Male",
                        customGender := some "anything" } none).status = some 201 :=
  ⟨by decide,
    (conditional_field_rules sampleEnv [] [] [sampleUser]
      { sampleBody with username := some "carol" } none none (some "") (some "anything")
      rfl (by decide) (by decide) rfl rfl rfl).2.2⟩

/-! ### The update handler -/

theorem lookup_some_mem {α β : Type} [BEq α] [LawfulBEq α] (l : List (α × β)) (k : α) (v : β)
    (h : l.lookup k = some v) : (k, v) ∈ l := by
  induction l with
  | nil => simp at h
  | cons p l ih =>
    obtain ⟨a, b⟩ := p
    by_cases hk : k == a
    · simp only [List.lookup, hk] at h
      have ha : k = a := by simpa using hk
      simp at h
      subst h; subst ha
      exact List.mem_cons_self _ _
    · have hk2 : (k == a) = false := by simpa using hk
      simp only [List.lookup, hk2] at h
      exact List.mem_cons_of_mem _ (ih h)

theorem setField_relates (env : Env) (Q : Doc → Doc → Prop) (key : String)
    (hrefl : ∀ d, Q d d)
    (hall : ∀ kf ∈ fieldSetters env, kf.1 = key → ∀ d v, Q d (kf.2 d v))
    (doc : Doc) (value : String) : Q doc (setField env doc key value) := by
  unfold setField
  cases h : (fieldSetters env).lookup key with
  | none => exact hrefl doc
  | some assign => exact hall (key, assign) (lookup_some_mem _ _ _ h) rfl doc value

theorem setField_id (env : Env) (doc : Doc) (key value : String) :
    (setField env doc key value).user.id = doc.user.id := by
  apply setField_relates env (fun d d2 => d2.user.id = d.user.id) key (fun _ => rfl)
  intro kf hkf _ d v
  simp only [fieldSetters, List.mem_cons, List.mem_singleton, List.not_mem_nil, or_false] at hkf
  rcases hkf with h | h | h | h | h | h | h | h | h | h | h | h | h | h | h | h <;> subst h <;>
    (try dsimp only) <;> (try split) <;> rfl

theorem setField_username (env : Env) (doc : Doc) (key value : String) :
    (setField env doc key value).user.username = doc.user.username := by
  apply setField_relates env (fun d d2 => d2.user.username = d.user.username) key (fun _ => rfl)
  intro kf hkf _ d v
  simp only [fieldSetters, List.mem_cons, List.mem_singleton, List.not_mem_nil, or_false] at hkf
  rcases hkf with h | h | h | h | h | h | h | h | h | h | h | h | h | h | h | h <;> subst h <;>
    (try dsimp only) <;> first
    | rfl
    | (split <;> rfl)

theorem setField_credentialAndPhoto (env : Env) (doc : Doc) (key value : String)
    (hk1 : key ≠ "profilePhoto") (hk2 : key ≠ "password") :
    (setField env doc key value).user.password = doc.user.password ∧
    (setField env doc key value).user.profilePhoto = doc.user.profilePhoto ∧
    (setField env doc key value).passwordModified = doc.passwordModified := by
  apply setField_relates env (fun d d2 => d2.user.password = d.user.password ∧
    d2.user.profilePhoto = d.user.profilePhoto ∧ d2.passwordModified = d.passwordModified)
    key (fun _ => ⟨rfl, rfl, rfl⟩)
  intro kf hkf hkey d v
  simp only [fieldSetters, List.mem_cons, List.mem_singleton, List.not_mem_nil, or_false] at hkf
  rcases hkf with h | h | h | h | h | h | h | h | h | h | h | h | h | h | h | h <;> subst h <;>
    (try dsimp only at hkey ⊢) <;> first
    | exact absurd hkey.symm hk1
    | exact absurd hkey.symm hk2
    | exact ⟨rfl, rfl, rfl⟩
    | (split <;> exact ⟨rfl, rfl, rfl⟩)

theorem setField_password (env : Env) (doc : Doc) (value : String) :
    setField env doc "password" value =
      { doc with user := { doc.user with password := value }, passwordModified := true } := rfl

theorem setField_profilePhoto (env : Env) (doc : Doc) (value : String) :
    setField env doc "profilePhoto" value =
      { doc with user := { doc.user with profilePhoto := some value } } := rfl

theorem setField_username_ignored (env : Env) (doc : Doc) (value : String) :
    setField env doc "username" value = doc := rfl

/-- An invariant of the merge loop: what every permitted assignment
preserves, the loop preserves. -/
theorem mergeFields_invariant (env : Env) (P : Doc → Prop) (updateData : List (String × String))
    (hstep : ∀ d k v, k ∈ updateData.map Prod.fst → k ≠ "profilePhoto" → k ≠ "password" →
      P d → P (setField env d k v))
    (doc : Doc) (h : P doc) : P (mergeFields env doc updateData) := by
  unfold mergeFields
  have key : ∀ (l : List String), (∀ k ∈ l, k ∈ updateData.map Prod.fst) → ∀ d, P d →
      P (l.foldl
        (fun doc key =>
          if key != "profilePhoto" && key != "password" then
            match updateData.lookup key with
            | some value => setField env doc key value
            | none => doc
          else doc) d) := by
    intro l
    induction l with
    | nil => intro _ d hd; exact hd
    | cons k l ih =>
      intro hl d hd
      simp only [List.foldl_cons]
      apply ih (fun k2 hk2 => hl k2 (List.mem_cons_of_mem _ hk2))
      by_cases hg : (k != "profilePhoto" && k != "password") = true
      · simp only [hg, if_true]
        cases hv : updateData.lookup k with
        | none => exact hd
        | some v =>
          simp only [Bool.and_eq_true, bne_iff_ne, ne_eq] at hg
          exact hstep d k v (hl k (List.mem_cons_self _ _)) hg.1 hg.2 hd
      · simp only [hg]
        exact hd
  exact key _ (fun _ hk => hk) doc h

theorem mergeFields_id (env : Env) (doc : Doc) (updateData : List (String × String)) :
    (mergeFields env doc updateData).user.id = doc.user.id :=
  mergeFields_invariant env (fun d => d.user.id = doc.user.id) updateData
    (fun d k v _ _ _ hd => (setField_id env d k v).trans hd) doc rfl

theorem mergeFields_credentialAndPhoto (env : Env) (doc : Doc)
    (updateData : List (String × String)) :
    (mergeFields env doc updateData).user.password = doc.user.password ∧
    (mergeFields env doc updateData).user.profilePhoto = doc.user.profilePhoto ∧
    (mergeFields env doc updateData).passwordModified = doc.passwordModified :=
  mergeFields_invariant env
    (fun d => d.user.password = doc.user.password ∧
      d.user.profilePhoto = doc.user.profilePhoto ∧ d.passwordModified = doc.passwordModified)
    updateData
    (fun d k v _ h1 h2 hd => by
      obtain ⟨e1, e2, e3⟩ := setField_credentialAndPhoto env d k v h1 h2
      exact ⟨e1.trans hd.1, e2.trans hd.2.1, e3.trans hd.2.2⟩)
    doc ⟨rfl, rfl, rfl⟩

theorem mergeFields_username (env : Env) (doc : Doc) (updateData : List (String × String)) :
    (mergeFields env doc updateData).user.username = doc.user.username :=
  mergeFields_invariant env (fun d => d.user.username = doc.user.username) updateData
    (fun d k v _ _ _ hd => (setField_username env d k v).trans hd)
    doc rfl

theorem updatePhoto_user (env : Env) (fs : FileStore) (doc : Doc) (file : Option File) :
    (updatePhoto env fs doc file).2.user.id = doc.user.id ∧
    (updatePhoto env fs doc file).2.user.username = doc.user.username ∧
    (updatePhoto env fs doc file).2.user.password = doc.user.password ∧
    (updatePhoto env fs doc file).2.passwordModified = doc.passwordModified := by
  cases file with
  | none => exact ⟨rfl, rfl, rfl, rfl⟩
  | some f => exact ⟨rfl, rfl, rfl, rfl⟩

theorem updatePhoto_none (env : Env) (fs : FileStore) (doc : Doc) :
    updatePhoto env fs doc none = (fs, doc) := rfl

theorem updatePassword_proceed (env : Env) (d0 doc : Doc) (body ud : List (String × String))
    (h : updatePassword env d0 body = .proceed doc ud) :
    (truthy (body.lookup "newPassword") = false ∧ doc = d0 ∧ ud = body) ∨
    (truthy (body.lookup "newPassword") = true ∧
      env.comparePassword (body.lookup "currentPassword") d0.user.password = some true ∧
      doc = setField env d0 "password" (toStr (body.lookup "newPassword")) ∧
      ud = deleteKey (deleteKey body "currentPassword") "newPassword") := by
  unfold updatePassword at h
  cases ht : truthy (body.lookup "newPassword") with
  | false =>
    simp only [ht, Bool.false_eq_true, if_false, PasswordStep.proceed.injEq] at h
    exact Or.inl ⟨rfl, h.1.symm, h.2.symm⟩
  | true =>
    simp only [ht, if_true] at h
    cases hc : env.comparePassword (body.lookup "currentPassword") d0.user.password with
    | none => rw [hc] at h; cases h
    | some ok =>
      rw [hc] at h
      cases ok with
      | false => cases h
      | true =>
        simp only [PasswordStep.proceed.injEq] at h
        exact Or.inr ⟨rfl, rfl, h.1.symm, h.2.symm⟩

theorem deleteKey_keys_subset (l : List (String × String)) (key k : String)
    (h : k ∈ (deleteKey l key).map Prod.fst) : k ∈ l.map Prod.fst := by
  simp only [deleteKey, List.mem_map, List.mem_filter] at h ⊢
  obtain ⟨p, ⟨hp, _⟩, hk⟩ := h
  exact ⟨p, hp, hk⟩

theorem updatePassword_keys (env : Env) (d0 doc : Doc) (body ud : List (String × String))
    (h : updatePassword env d0 body = .proceed doc ud) (k : String)
    (hk : k ∈ ud.map Prod.fst) : k ∈ body.map Prod.fst := by
  rcases updatePassword_proceed env d0 doc body ud h with ⟨_, _, hu⟩ | ⟨_, _, _, hu⟩
  · rw [hu] at hk; exact hk
  · rw [hu] at hk
    exact deleteKey_keys_subset _ _ _ (deleteKey_keys_subset _ _ _ hk)

theorem updatePassword_user (env : Env) (d0 doc : Doc) (body ud : List (String × String))
    (h : updatePassword env d0 body = .proceed doc ud) :
    doc.user.id = d0.user.id ∧ doc.user.username = d0.user.username ∧
    doc.user.profilePhoto = d0.user.profilePhoto := by
  rcases updatePassword_proceed env d0 doc body ud h with ⟨_, hd, _⟩ | ⟨_, _, hd, _⟩
  · rw [hd]; exact ⟨rfl, rfl, rfl⟩
  · rw [hd, setField_password]; exact ⟨rfl, rfl, rfl⟩

theorem catchBlock_repo (error : String) (fs : FileStore) (repo : Repo) (file : Option File) :
    (catchBlock error fs repo file).repo = repo := by
  unfold catchBlock
  split <;> rfl

theorem catchBlock_response (error : String) (fs : FileStore) (repo : Repo)
    (file : Option File) (resp : Response)
    (h : (catchBlock error fs repo file).response = some resp) :
    resp = { status := 500, body := .error error } := by
  unfold catchBlock at h
  split at h
  · simp only [Option.some.injEq] at h; exact h.symm
  · cases h

theorem discardAndRespond_repo (error : String) (fs : FileStore) (repo : Repo)
    (file : Option File) (response : Response) :
    (discardAndRespond error fs repo file response).repo = repo := by
  unfold discardAndRespond
  split
  · rfl
  · exact catchBlock_repo error fs repo file

theorem discardAndRespond_response (error : String) (fs : FileStore) (repo : Repo)
    (file : Option File) (response resp : Response)
    (h : (discardAndRespond error fs repo file response).response = some resp) :
    resp = response ∨ resp = { status := 500, body := .error error } := by
  unfold discardAndRespond at h
  split at h
  · simp only [Option.some.injEq] at h; exact Or.inl h.symm
  · exact Or.inr (catchBlock_response error fs repo file resp h)

theorem updateHandler_found (env : Env) (fs : FileStore) (repo : Repo) (username : String)
    (body : List (String × String)) (file : Option File) (user : User) (doc : Doc)
    (ud : List (String × String))
    (hf : env.findOneFails = false)
    (hr : repo.find? (fun u => u.username == username) = some user)
    (hp : updatePassword env { user := user, passwordModified := false, invalid := [] } body
      = .proceed doc ud) :
    updateHandler env fs repo username body file =
      (match save env repo (updatedDoc env fs doc ud file) false with
       | none =>
         catchBlock "Server error during profile update" (updatePhoto env fs doc file).1 repo file
       | some (repo1, saved) =>
         { fs := (updatePhoto env fs doc file).1, repo := repo1,
           response := some
             { status := 200
               body := .user "Profile updated successfully" (userResponse saved) } }) := by
  unfold updateHandler
  simp only [findOne, hf, hr, hp, updatedDoc, Bool.false_eq_true, if_false]

theorem save_existing (env : Env) (repo repo1 : Repo) (d : Doc) (saved : User)
    (h : save env repo d false = some (repo1, saved)) :
    env.saveFails = false ∧ d.invalid = [] ∧
    saved = (if d.passwordModified then { d.user with password := env.hash d.user.password }
      else d.user) ∧
    repo1 = repo.map (fun r => if r.id = saved.id then saved else r) := by
  unfold save at h
  split at h
  · cases h
  · rename_i hc
    simp only [Bool.or_eq_true, not_or, Bool.not_eq_true] at hc
    simp only [Bool.false_eq_true, if_false, Option.some.injEq, Prod.mk.injEq] at h
    obtain ⟨h1, h2⟩ := h
    refine ⟨hc.1, by simpa using hc.2, h2.symm, ?_⟩
    rw [← h1, ← h2]

theorem save_fails (env : Env) (repo : Repo) (d : Doc) (isNew : Bool)
    (h : env.saveFails = true) : save env repo d isNew = none := by
  simp [save, h]

theorem replace_map_eq {β : Type} (g : User → β) (repo : Repo) (user saved : User)
    (hmem : user ∈ repo) (hid : saved.id = user.id) (hg : g saved = g user)
    (hnd : (repo.map (fun r => r.id)).Nodup) :
    (repo.map (fun r => if r.id = saved.id then saved else r)).map g = repo.map g := by
  rw [List.map_map]
  apply List.map_congr_left
  intro r hr
  simp only [Function.comp]
  by_cases h : r.id = saved.id
  · have hru : r = user := List.inj_on_of_nodup_map hnd hr hmem (h.trans hid)
    rw [if_pos h, hg, hru]
  · rw [if_neg h]

theorem updatedDoc_user (env : Env) (fs : FileStore) (doc : Doc)
    (ud : List (String × String)) (file : Option File) :
    (updatedDoc env fs doc ud file).user.id = doc.user.id ∧
    (updatedDoc env fs doc ud file).user.password = doc.user.password ∧
    (updatedDoc env fs doc ud file).passwordModified = doc.passwordModified ∧
    (updatedDoc env fs doc ud file).user.username = doc.user.username ∧
    (file = none →
      (updatedDoc env fs doc ud file).user.profilePhoto = doc.user.profilePhoto) := by
  obtain ⟨p1, p2, p3, p4⟩ := updatePhoto_user env fs doc file
  obtain ⟨m1, m2, m3⟩ :=
    mergeFields_credentialAndPhoto env (updatePhoto env fs doc file).2 ud
  refine ⟨?_, ?_, ?_, ?_, ?_⟩
  · exact (mergeFields_id env _ ud).trans p1
  · exact m1.trans p3
  · exact m3.trans p4
  · exact (mergeFields_username env _ ud).trans p2
  · intro hfile
    subst hfile
    exact m2

/-- Every run of the update handler either leaves the repository as it was
and answers (if at all) with an error body, or has found the record, passed
the password block, saved, and answers 200 with the saved record. -/
theorem updateHandler_cases (env : Env) (fs : FileStore) (repo : Repo) (username : String)
    (body : List (String × String)) (file : Option File) :
    ((updateHandler env fs repo username body file).repo = repo ∧
      ∀ resp, (updateHandler env fs repo username body file).response = some resp →
        ∃ e, resp.body = .error e) ∨
    (∃ user doc ud saved,
      repo.find? (fun u => u.username == username) = some user ∧
      updatePassword env { user := user, passwordModified := false, invalid := [] } body
        = .proceed doc ud ∧
      save env repo (updatedDoc env fs doc ud file) false
        = some ((updateHandler env fs repo username body file).repo, saved) ∧
      (updateHandler env fs repo username body file).response =
        some { status := 200
               body := .user "Profile updated successfully" (userResponse saved) } ∧
      (updateHandler env fs repo username body file).fs = (updatePhoto env fs doc file).1) := by
  cases hf : env.findOneFails with
  | true =>
    left
    have : updateHandler env fs repo username body file =
        catchBlock "Server error during profile update" fs repo file := by
      unfold updateHandler; simp [findOne, hf]
    rw [this]
    exact ⟨catchBlock_repo _ _ _ _, fun resp h => ⟨_, congrArg Response.body (catchBlock_response _ _ _ _ _ h)⟩⟩
  | false =>
    cases hr : repo.find? (fun u => u.username == username) with
    | none =>
      left
      have : updateHandler env fs repo username body file =
          discardAndRespond "Server error during profile update" fs repo file
            { status := 404, body := .error "User not found" } := by
        unfold updateHandler; simp [findOne, hf, hr]
      rw [this]
      refine ⟨discardAndRespond_repo _ _ _ _ _, fun resp h => ?_⟩
      rcases discardAndRespond_response _ _ _ _ _ _ h with h1 | h1 <;>
        exact ⟨_, congrArg Response.body h1⟩
    | some user =>
      cases hp : updatePassword env { user := user, passwordModified := false, invalid := [] }
          body with
      | threw =>
        left
        have : updateHandler env fs repo username body file =
            catchBlock "Server error during profile update" fs repo file := by
          unfold updateHandler; simp [findOne, hf, hr, hp]
        rw [this]
        exact ⟨catchBlock_repo _ _ _ _,
          fun resp h => ⟨_, congrArg Response.body (catchBlock_response _ _ _ _ _ h)⟩⟩
      | mismatch =>
        left
        have : updateHandler env fs repo username body file =
            discardAndRespond "Server error during profile update" fs repo file
              { status := 400, body := .error "Current password is incorrect" } := by
          unfold updateHandler; simp [findOne, hf, hr, hp]
        rw [this]
        refine ⟨discardAndRespond_repo _ _ _ _ _, fun resp h => ?_⟩
        rcases discardAndRespond_response _ _ _ _ _ _ h with h1 | h1 <;>
        exact ⟨_, congrArg Response.body h1⟩
      | proceed doc ud =>
        rw [updateHandler_found env fs repo username body file user doc ud hf hr hp]
        cases hs : save env repo (updatedDoc env fs doc ud file) false with
        | none =>
          left
          exact ⟨catchBlock_repo _ _ _ _,
            fun resp h => ⟨_, congrArg Response.body (catchBlock_response _ _ _ _ _ h)⟩⟩
        | some res =>
          right
          obtain ⟨repo1, saved⟩ := res
          exact ⟨user, doc, ud, saved, rfl, hp, hs, rfl, rfl⟩

theorem updateRoute_ok (env : Env) (fs fs1 : FileStore) (repo : Repo) (username : String)
    (body : List (String × String)) (upload : Option Upload) (file : Option File)
    (h : uploadSingle env fs upload = .ok (fs1, file)) :
    updateRoute env fs repo username body upload =
      updateHandler env fs1 repo username body file := by
  simp [updateRoute, h]

theorem updateRoute_error (env : Env) (fs : FileStore) (repo : Repo) (username : String)
    (body : List (String × String)) (upload : Option Upload) (e : String)
    (h : uploadSingle env fs upload = .error e) :
    updateRoute env fs repo username body upload = errorMiddleware fs repo e := by
  simp [updateRoute, h]

theorem updateRoute_none (env : Env) (fs : FileStore) (repo : Repo) (username : String)
    (body : List (String × String)) :
    updateRoute env fs repo username body none = updateHandler env fs repo username body none :=
  rfl

/-- What a successful save of the update handler stores, relative to the
record that was loaded. -/
theorem updateHandler_saved (env : Env) (fs : FileStore) (repo repo1 : Repo)
    (body ud : List (String × String)) (file : Option File) (user saved : User) (doc : Doc)
    (hp : updatePassword env { user := user, passwordModified := false, invalid := [] } body
      = .proceed doc ud)
    (hs : save env repo (updatedDoc env fs doc ud file) false = some (repo1, saved)) :
    saved.id = user.id ∧
    repo1 = repo.map (fun r => if r.id = saved.id then saved else r) ∧
    saved.username = user.username ∧
    (truthy (body.lookup "newPassword") = false → saved.password = user.password) ∧
    (file = none → saved.profilePhoto = user.profilePhoto) := by
  obtain ⟨_, _, hsaved, hrepo⟩ := save_existing env repo repo1 _ saved hs
  obtain ⟨d1, d2, d3, d4, d5⟩ := updatedDoc_user env fs doc ud file
  obtain ⟨q1, q2, q3⟩ := updatePassword_user env _ doc body ud hp
  have hfield : saved.id = (updatedDoc env fs doc ud file).user.id ∧
      saved.username = (updatedDoc env fs doc ud file).user.username ∧
      saved.profilePhoto = (updatedDoc env fs doc ud file).user.profilePhoto := by
    rw [hsaved]
    split <;> exact ⟨rfl, rfl, rfl⟩
  refine ⟨hfield.1.trans (d1.trans q1), hrepo, ?_, ?_, ?_⟩
  · exact hfield.2.1.trans (d4.trans q2)
  · intro hpw
    rcases updatePassword_proceed env _ doc body ud hp with ⟨_, hd, _⟩ | ⟨ht, _⟩
    · have hm : (updatedDoc env fs doc ud file).passwordModified = false := by
        rw [d3, hd]
      rw [hsaved, hm]
      simp only [Bool.false_eq_true, if_false]
      rw [d2, hd]
    · rw [hpw] at ht; cases ht
  · intro hfile
    exact hfield.2.2.trans ((d5 hfile).trans q3)

/-- C9: an update without upload and without `newPassword` leaves the stored
credential and the photo reference of every record as they were, whatever
keys the patch carries (`password` and `profilePhoto` included). -/
theorem update_merge_keeps_credential_and_photo (env : Env) (fs : FileStore) (repo : Repo)
    (username : String) (body : List (String × String))
    (hid : (repo.map (fun r => r.id)).Nodup)
    (hpw : truthy (body.lookup "newPassword") = false) :
    (updateRoute env fs repo username body none).repo.map credentialAndPhoto =
      repo.map credentialAndPhoto := by
  rw [updateRoute_none]
  rcases updateHandler_cases env fs repo username body none with
    ⟨hrepo, _⟩ | ⟨user, doc, ud, saved, hr, hp, hs, _, _⟩
  · rw [hrepo]
  · obtain ⟨h1, h2, _, h4, h5⟩ := updateHandler_saved env fs repo _ body ud none user saved doc hp hs
    rw [h2]
    apply replace_map_eq credentialAndPhoto repo user saved (List.mem_of_find?_eq_some hr) h1 ?_ hid
    simp only [credentialAndPhoto, h1, h4 hpw, h5 rfl]

/-- Witness of C9: a patch that carries `password`, `profilePhoto` and a
city, sent for `alice` without upload. -/
theorem update_merge_keeps_credential_and_photo_witness :
    ([sampleUser].map (fun r => r.id)).Nodup ∧
    truthy ([("password", "x"), ("profilePhoto", "/etc/passwd"), ("city", "SF")].lookup
      "newPassword") = false ∧
    (updateRoute sampleEnv ["/uploads/profile-1-1.png"] [sampleUser] "alice"
      [("password", "x"), ("profilePhoto", "/etc/passwd"), ("city", "SF")] none).repo.map
        credentialAndPhoto = [sampleUser].map credentialAndPhoto :=
  ⟨by decide, by decide,
    update_merge_keeps_credential_and_photo sampleEnv _ [sampleUser] "alice" _
      (by decide) (by decide)⟩

/-- C4: the username of a record is immutable after creation. For every
update request (any patch, the key `username` included, with or without an
upload or a password change), whatever its outcome, the username stored for
every record after the request is the one stored before it. -/
theorem update_keeps_username (env : Env) (fs : FileStore) (repo : Repo)
    (username : String) (body : List (String × String)) (upload : Option Upload)
    (hid : (repo.map (fun r => r.id)).Nodup) :
    (updateRoute env fs repo username body upload).repo.map (fun r => (r.id, r.username)) =
      repo.map (fun r => (r.id, r.username)) := by
  cases hup : uploadSingle env fs upload with
  | error e =>
    rw [updateRoute_error env fs repo username body upload e hup]
    rfl
  | ok res =>
    obtain ⟨fs1, file⟩ := res
    rw [updateRoute_ok env fs fs1 repo username body upload file hup]
    rcases updateHandler_cases env fs1 repo username body file with
      ⟨hrepo, _⟩ | ⟨user, doc, ud, saved, hr, hp, hs, _, _⟩
    · rw [hrepo]
    · obtain ⟨h1, h2, h3, _, _⟩ :=
        updateHandler_saved env fs1 repo _ body ud file user saved doc hp hs
      rw [h2]
      apply replace_map_eq (fun r => (r.id, r.username)) repo user saved
        (List.mem_of_find?_eq_some hr) h1 ?_ hid
      simp only [h1, h3]

/-- Witness of C4: a patch for `alice` that carries the key `username`, a
password change and a new city, sent with a PNG; the update succeeds. -/
theorem update_keeps_username_witness :
    ([sampleUser].map (fun r => r.id)).Nodup ∧
    (updateRoute sampleEnv ["/uploads/profile-1-1.png"] [sampleUser] "alice"
      [("username", "mallory"), ("currentPassword", "secret12!"), ("newPassword", "fresh34#"),
       ("city", "SF")] (some samplePng)).status = some 200 ∧
    (updateRoute sampleEnv ["/uploads/profile-1-1.png"] [sampleUser] "alice"
      [("username", "mallory"), ("currentPassword", "secret12!"), ("newPassword", "fresh34#"),
       ("city", "SF")] (some samplePng)).repo.map (fun r => (r.id, r.username))
      = [(1, "alice")] :=
  ⟨by decide, by decide,
    update_keeps_username sampleEnv _ [sampleUser] "alice" _ (some samplePng) (by decide)⟩

/-! ### Responses carry no credential -/

theorem userResponse_password (u : User) (h : String) :
    userResponse { u with password := h } = userResponse u := rfl

theorem toObject_keys (u : User) (k : String) (hk : k ∈ (toObject u).map Prod.fst) :
    k ∈ schemaKeys := by
  cases hc : u.companyName <;> cases hg : u.customGender <;>
    simp only [toObject, hc, hg, List.map_append, List.map_cons, List.map_nil, List.append_nil,
      List.cons_append, List.nil_append, List.mem_cons, List.not_mem_nil, or_false] at hk <;>
    simp only [schemaKeys, List.mem_cons, List.not_mem_nil, or_false] <;>
    tauto

theorem userResponse_keys (u : User) (kv : String × JsVal) (hkv : kv ∈ userResponse u) :
    kv.1 ≠ "password" ∧ kv.1 ≠ "currentPassword" ∧ kv.1 ≠ "newPassword" := by
  simp only [userResponse, deleteKey, List.mem_filter, bne_iff_ne, ne_eq] at hkv
  obtain ⟨hm, hne⟩ := hkv
  have hk : kv.1 ∈ schemaKeys := toObject_keys u kv.1 (List.mem_map_of_mem Prod.fst hm)
  refine ⟨hne, ?_, ?_⟩
  · intro h
    rw [h] at hk
    revert hk
    decide
  · intro h
    rw [h] at hk
    revert hk
    decide

theorem registerHandler_user_response (env : Env) (fs : FileStore) (repo : Repo)
    (b : RegisterBody) (file : Option File) (status : Nat) (message : String)
    (o : List (String × JsVal))
    (h : (registerHandler env fs repo b file).response =
      some { status := status, body := .user message o }) :
    o = userResponse (registeredUser env b file) ∧
    registeredUser env b file ∈ (registerHandler env fs repo b file).repo := by
  by_cases hv : userValidation b = []
  · cases hf : env.findOneFails with
    | true =>
      have e : registerHandler env fs repo b file =
          catchBlock "Server error during registration" fs repo file := by
        unfold registerHandler; simp [hv, findOne, hf]
      rw [e] at h
      have := catchBlock_response _ _ _ _ _ h
      simp at this
    | false =>
      cases hr : repo.find? (fun u => u.username == trim (toStr b.username)) with
      | some r =>
        have e : registerHandler env fs repo b file =
            discardAndRespond "Server error during registration" fs repo file
              { status := 400
                body := .errors
                  [{ path := none, msg := "Username already taken", value := none }] } := by
          unfold registerHandler; simp [hv, findOne, hf, hr]
        rw [e] at h
        rcases discardAndRespond_response _ _ _ _ _ _ h with h1 | h1 <;> simp at h1
      | none =>
        cases hs : env.saveFails with
        | true =>
          have e : registerHandler env fs repo b file =
              catchBlock "Server error during registration" fs repo file := by
            unfold registerHandler; simp [hv, findOne, hf, hr, save, hs]
          rw [e] at h
          have := catchBlock_response _ _ _ _ _ h
          simp at this
        | false =>
          rw [registerHandler_success env fs repo b file hv hf hr hs] at h ⊢
          simp only [Option.some.injEq, Response.mk.injEq, Body.user.injEq] at h
          exact ⟨h.2.2.symm, by simp⟩
  · have e : registerHandler env fs repo b file =
        discardAndRespond "Server error during registration" fs repo file
          { status := 400, body := .errors (userValidation b) } := by
      unfold registerHandler; simp [isEmpty_eq_false_of_ne_nil _ hv]
    rw [e] at h
    rcases discardAndRespond_response _ _ _ _ _ _ h with h1 | h1 <;> simp at h1

theorem errorMiddleware_response (fs : FileStore) (repo : Repo) (e : String) (status : Nat)
    (message : String) (o : List (String × JsVal)) :
    (errorMiddleware fs repo e).response ≠ some { status := status, body := .user message o } := by
  simp [errorMiddleware]

/-- C8: the user object of a successful registration and that of a
successful profile update have no `password`, `currentPassword` or
`newPassword` key, and each is the serialisation of a stored record with the
credential left out: it is the same whatever the stored hash is. -/
theorem responses_omit_credentials (env env2 : Env) (fs fs2 : FileStore) (repo repo2 : Repo)
    (b : RegisterBody) (upload upload2 : Option Upload) (username : String)
    (body : List (String × String)) (status status2 : Nat) (message message2 : String)
    (o o2 : List (String × JsVal))
    (hreg : (registerRoute env fs repo b upload).response =
      some { status := status, body := .user message o })
    (hupd : (updateRoute env2 fs2 repo2 username body upload2).response =
      some { status := status2, body := .user message2 o2 }) :
    ((∀ kv ∈ o, kv.1 ≠ "password" ∧ kv.1 ≠ "currentPassword" ∧ kv.1 ≠ "newPassword") ∧
      ∃ u ∈ (registerRoute env fs repo b upload).repo,
        ∀ hash, o = userResponse { u with password := hash }) ∧
    ((∀ kv ∈ o2, kv.1 ≠ "password" ∧ kv.1 ≠ "currentPassword" ∧ kv.1 ≠ "newPassword") ∧
      ∃ u ∈ (updateRoute env2 fs2 repo2 username body upload2).repo,
        ∀ hash, o2 = userResponse { u with password := hash }) := by
  constructor
  · cases hup : uploadSingle env fs upload with
    | error e =>
      have e1 : registerRoute env fs repo b upload = errorMiddleware fs repo e := by
        simp [registerRoute, hup]
      rw [e1] at hreg
      exact absurd hreg (errorMiddleware_response _ _ _ _ _ _)
    | ok res =>
      obtain ⟨fs1, file⟩ := res
      rw [registerRoute_ok env fs fs1 repo b upload file hup] at hreg ⊢
      obtain ⟨ho, hmem⟩ := registerHandler_user_response env fs1 repo b file _ _ _ hreg
      refine ⟨fun kv hkv => userResponse_keys _ kv (ho ▸ hkv), _, hmem, fun hash => ?_⟩
      rw [userResponse_password]
      exact ho
  · cases hup : uploadSingle env2 fs2 upload2 with
    | error e =>
      rw [updateRoute_error env2 fs2 repo2 username body upload2 e hup] at hupd
      exact absurd hupd (errorMiddleware_response _ _ _ _ _ _)
    | ok res =>
      obtain ⟨fs1, file⟩ := res
      rw [updateRoute_ok env2 fs2 fs1 repo2 username body upload2 file hup] at hupd ⊢
      rcases updateHandler_cases env2 fs1 repo2 username body file with
        ⟨_, herr⟩ | ⟨user, doc, ud, saved, hr, hp, hs, hresp, _⟩
      · obtain ⟨e, he⟩ := herr _ hupd
        simp at he
      · rw [hresp] at hupd
        simp only [Option.some.injEq, Response.mk.injEq, Body.user.injEq] at hupd
        have ho : o2 = userResponse saved := hupd.2.2.symm
        obtain ⟨h1, h2, _, _, _⟩ :=
          updateHandler_saved env2 fs1 repo2 _ body ud file user saved doc hp hs
        have hmem : saved ∈ (updateHandler env2 fs1 repo2 username body file).repo := by
          rw [h2]
          exact List.mem_map.mpr ⟨user, List.mem_of_find?_eq_some hr, by simp [h1]⟩
        refine ⟨fun kv hkv => userResponse_keys _ kv (ho ▸ hkv), _, hmem, fun hash => ?_⟩
        rw [userResponse_password]
        exact ho

/-- Witness of C8: the registration of `carol` with a PNG, and an update of
`alice` whose patch carries `currentPassword`, `password` and a city. -/
theorem responses_omit_credentials_witness :
    (registerRoute sampleEnv [] [sampleUser] { sampleBody with username := some "carol" }
        (some samplePng)).status = some 201 ∧
    (updateRoute sampleEnv ["/uploads/profile-1-1.png"] [sampleUser] "alice"
        [("currentPassword", "secret12!"), ("password", "x"), ("city", "SF")] none).status
      = some 200 ∧
    (∀ kv ∈ userResponse (registeredUser sampleEnv { sampleBody with username := some "carol" }
        (some { filename := "profile-7-3.png", path := "/uploads/profile-7-3.png" })),
      kv.1 ≠ "password" ∧ kv.1 ≠ "currentPassword" ∧ kv.1 ≠ "newPassword") ∧
    (∀ kv ∈ userResponse { sampleUser with city := "SF", updatedAt := 7 },
      kv.1 ≠ "password" ∧ kv.1 ≠ "currentPassword" ∧ kv.1 ≠ "newPassword") :=
  ⟨rfl, rfl,
    (responses_omit_credentials sampleEnv sampleEnv [] ["/uploads/profile-1-1.png"]
      [sampleUser] [sampleUser] { sampleBody with username := some "carol" }
      (some samplePng) none "alice"
      [("currentPassword", "secret12!"), ("password", "x"), ("city", "SF")]
      201 200 "User registered successfully" "Profile updated successfully"
      (userResponse (registeredUser sampleEnv { sampleBody with username := some "carol" }
        (some { filename := "profile-7-3.png", path := "/uploads/profile-7-3.png" })))
      (userResponse { sampleUser with city := "SF", updatedAt := 7 }) rfl rfl).1.1,
    (responses_omit_credentials sampleEnv sampleEnv [] ["/uploads/profile-1-1.png"]
      [sampleUser] [sampleUser] { sampleBody with username := some "carol" }
      (some samplePng) none "alice"
      [("currentPassword", "secret12!"), ("password", "x"), ("city", "SF")]
      201 200 "User registered successfully" "Profile updated successfully"
      (userResponse (registeredUser sampleEnv { sampleBody with username := some "carol" }
        (some { filename := "profile-7-3.png", path := "/uploads/profile-7-3.png" })))
      (userResponse { sampleUser with city := "SF", updatedAt := 7 }) rfl rfl).2.1⟩

/-! ### Photo replacement and password change on update -/

theorem updatePhoto_unlinks_old (env : Env) (fs : FileStore) (doc : Doc) (f : File)
    (old : String) (hphoto : doc.user.profilePhoto = some old) (hne : old ≠ "")
    (hold : old ∈ fs) :
    (updatePhoto env fs doc (some f)).1 = fs.filter (fun p => p != old) := by
  simp [updatePhoto, hphoto, truthy, hne, toStr, existsSync, unlinkSync, hold]

/-- C1 (what the code does): on an update that carries an accepted upload,
for a record whose photo file exists, a failing save is answered 500 with the
staged file removed and the repository unchanged, but the old photo file has
been unlinked before the save and is gone, while the stored record still
references it. -/
theorem update_save_failure_unlinks_old_photo (env : Env) (fs fs1 : FileStore) (repo : Repo)
    (username : String) (body ud : List (String × String)) (u : Upload) (f : File)
    (user : User) (old : String) (doc : Doc)
    (hup : uploadSingle env fs (some u) = .ok (fs1, some f))
    (hfind : env.findOneFails = false)
    (huser : repo.find? (fun r => r.username == username) = some user)
    (hphoto : user.profilePhoto = some old) (hne : old ≠ "")
    (hold : old ∈ fs) (hdistinct : old ≠ f.path)
    (hpw : updatePassword env { user := user, passwordModified := false, invalid := [] } body
      = .proceed doc ud)
    (hsave : env.saveFails = true) :
    (updateRoute env fs repo username body (some u)).response =
      some { status := 500, body := .error "Server error during profile update" } ∧
    f.path ∉ (updateRoute env fs repo username body (some u)).fs ∧
    (updateRoute env fs repo username body (some u)).repo = repo ∧
    old ∉ (updateRoute env fs repo username body (some u)).fs ∧
    (∃ r ∈ (updateRoute env fs repo username body (some u)).repo,
      r.profilePhoto = some old) := by
  have hst : Staged fs1 (some f) := uploadSingle_staged env fs fs1 (some u) (some f) hup
  have hold1 : old ∈ fs1 := by
    rcases uploadSingle_ok env fs fs1 (some u) (some f) hup with ⟨h0, _⟩ | ⟨g, _, hfs, _⟩
    · cases h0
    · rw [hfs]; exact mem_writeFile_of_mem fs _ old hold
  have hdoc : doc.user.profilePhoto = some old :=
    (updatePassword_user env _ doc body ud hpw).2.2.trans hphoto
  have hfs2 : (updatePhoto env fs1 doc (some f)).1 = fs1.filter (fun p => p != old) :=
    updatePhoto_unlinks_old env fs1 doc f old hdoc hne hold1
  have hst2 : Staged (fs1.filter (fun p => p != old)) (some f) := by
    intro g hg
    simp only [Option.some.injEq] at hg
    subst hg
    simp only [List.mem_filter, bne_iff_ne, ne_eq]
    exact ⟨hst _ rfl, fun h => hdistinct h.symm⟩
  rw [updateRoute_ok env fs fs1 repo username body (some u) (some f) hup,
    updateHandler_found env fs1 repo username body (some f) user doc ud hfind huser hpw,
    save_fails env repo _ false hsave]
  simp only [hfs2]
  rw [catchBlock_staged _ _ repo (some f) hst2]
  refine ⟨rfl, not_mem_withoutUpload _ f, rfl, ?_, user, List.mem_of_find?_eq_some huser, hphoto⟩
  simp [withoutUpload]

/-- Witness of C1: `alice` sends a new PNG, her old photo is in the store,
and the save fails. -/
theorem update_save_failure_unlinks_old_photo_witness :
    (updateRoute { sampleEnv with saveFails := true } ["/uploads/profile-1-1.png"] [sampleUser]
      "alice" [] (some samplePng)).response =
      some { status := 500, body := .error "Server error during profile update" } ∧
    "/uploads/profile-7-3.png" ∉
      (updateRoute { sampleEnv with saveFails := true } ["/uploads/profile-1-1.png"]
        [sampleUser] "alice" [] (some samplePng)).fs ∧
    (updateRoute { sampleEnv with saveFails := true } ["/uploads/profile-1-1.png"] [sampleUser]
      "alice" [] (some samplePng)).repo = [sampleUser] ∧
    "/uploads/profile-1-1.png" ∉
      (updateRoute { sampleEnv with saveFails := true } ["/uploads/profile-1-1.png"]
        [sampleUser] "alice" [] (some samplePng)).fs ∧
    (∃ r ∈ (updateRoute { sampleEnv with saveFails := true } ["/uploads/profile-1-1.png"]
        [sampleUser] "alice" [] (some samplePng)).repo,
      r.profilePhoto = some "/uploads/profile-1-1.png") :=
  update_save_failure_unlinks_old_photo { sampleEnv with saveFails := true }
    ["/uploads/profile-1-1.png"] _ [sampleUser] "alice" [] [] samplePng
    { filename := "profile-7-3.png", path := "/uploads/profile-7-3.png" } sampleUser
    "/uploads/profile-1-1.png" { user := sampleUser, passwordModified := false, invalid := [] }
    rfl rfl rfl rfl (by decide) (by decide) (by decide) rfl rfl

theorem lookahead_any (cls : Char → Bool) (s : String) (h : lookahead cls s = true) :
    s.toList.any cls = true := by
  unfold lookahead at h
  rw [Bool.or_eq_true] at h
  rcases h with h | h
  · obtain ⟨c, hc, hcls⟩ := List.any_eq_true.mp h
    exact List.any_eq_true.mpr
      ⟨c, ( List.takeWhile_prefix (fun c => !isLineTerminator c)).subset hc, hcls⟩
  · split at h
    · cases h
    · rename_i c rest heq
      have hmem : c ∈ s.toList.dropWhile (fun c => !isLineTerminator c) := by
        rw [heq]; exact List.mem_cons_self _ _
      exact List.any_eq_true.mpr
        ⟨c, (List.dropWhile_suffix (fun c => !isLineTerminator c)).subset hmem, h⟩

/-- The registration half of C3: a password without a digit, or without a
character of `!@#$%^&*`, is answered 400 with a violation on `password`, and
nothing is stored. -/
theorem register_rejects_weak_password (env : Env) (fs fs1 : FileStore) (repo : Repo)
    (b : RegisterBody) (upload : Option Upload) (file : Option File)
    (hup : uploadSingle env fs upload = .ok (fs1, file))
    (hweak : hasDigit (toStr b.password) = false ∨
      (toStr b.password).toList.any isSpecial = false) :
    ∃ errors,
      (registerRoute env fs repo b upload).response =
          some { status := 400, body := .errors errors } ∧
      (∃ e ∈ errors, e.path = some "password") ∧
      (registerRoute env fs repo b upload).repo = repo := by
  have hm : matchesDigitAndSpecial (toStr b.password) = false := by
    unfold matchesDigitAndSpecial
    rcases hweak with h | h
    · have : lookahead isDigit (toStr b.password) = false := by
        cases hl : lookahead isDigit (toStr b.password) with
        | false => rfl
        | true =>
          have := lookahead_any _ _ hl
          unfold hasDigit at h
          rw [h] at this; cases this
      rw [this, Bool.false_and]
    · have : lookahead isSpecial (toStr b.password) = false := by
        cases hl : lookahead isSpecial (toStr b.password) with
        | false => rfl
        | true =>
          have := lookahead_any _ _ hl
          rw [h] at this; cases this
      rw [this, Bool.and_false]
  have hmem : fieldError "password"
      "Password must contain at least one number and one special character" b.password
      ∈ userValidation b := by
    have hpc : fieldError "password"
        "Password must contain at least one number and one special character" b.password
        ∈ passwordChain b.password := by
      unfold passwordChain
      simp [hm, fieldError]
    unfold userValidation
    simp only [List.append_assoc, List.mem_append]
    exact Or.inr (Or.inl hpc)
  rw [registerRoute_ok env fs fs1 repo b upload file hup,
    registerHandler_invalid env fs1 repo b file (uploadSingle_staged env fs fs1 upload file hup)
      (List.ne_nil_of_mem hmem)]
  exact ⟨userValidation b, rfl, ⟨_, hmem, rfl⟩, rfl⟩

theorem updatePassword_change (env : Env) (d0 : Doc) (current newPassword : String)
    (hnonempty : newPassword ≠ "")
    (hcurrent : env.comparePassword (some current) d0.user.password = some true) :
    updatePassword env d0 [("currentPassword", current), ("newPassword", newPassword)] =
      .proceed (setField env d0 "password" newPassword) [] := by
  have h1 : List.lookup "newPassword"
      [("currentPassword", current), ("newPassword", newPassword)] = some newPassword := by
    simp [List.lookup]
  have h2 : List.lookup "currentPassword"
      [("currentPassword", current), ("newPassword", newPassword)] = some current := by
    simp [List.lookup]
  unfold updatePassword
  simp [h1, h2, truthy, hnonempty, hcurrent, toStr, deleteKey]

/-- C3 (what the code does on update): `PUT /:username` applies no rule to
`newPassword`. Whatever non-empty string it is, with the correct
`currentPassword` and the datastore answering, the update is answered 200 and
the record stored afterwards carries the hash of that string. -/
theorem update_stores_unvalidated_password (env : Env) (fs : FileStore) (repo : Repo)
    (username current newPassword : String) (user : User)
    (hfind : env.findOneFails = false) (hsave : env.saveFails = false)
    (huser : repo.find? (fun r => r.username == username) = some user)
    (hnonempty : newPassword ≠ "")
    (hcurrent : env.comparePassword (some current) user.password = some true) :
    (updateRoute env fs repo username
      [("currentPassword", current), ("newPassword", newPassword)] none).status = some 200 ∧
    { user with password := env.hash newPassword, updatedAt := env.now } ∈
      (updateRoute env fs repo username
        [("currentPassword", current), ("newPassword", newPassword)] none).repo := by
  have hp := updatePassword_change env
    { user := user, passwordModified := false, invalid := [] } current newPassword
    hnonempty hcurrent
  have hs : save env repo
      (updatedDoc env fs
        (setField env { user := user, passwordModified := false, invalid := [] }
          "password" newPassword) [] none) false =
      some (repo.map (fun r => if r.id = user.id then
          { user with password := env.hash newPassword, updatedAt := env.now } else r),
        { user with password := env.hash newPassword, updatedAt := env.now }) := by
    simp [save, hsave, updatedDoc, updatePhoto, mergeFields, setField_password, markValid]
  rw [updateRoute_none,
    updateHandler_found env fs repo username _ none user _ _ hfind huser hp, hs]
  refine ⟨rfl, ?_⟩
  exact List.mem_map.mpr ⟨user, List.mem_of_find?_eq_some huser, by simp⟩

/-- Witness of C3: `alice` changes her password to `"abc"`, which has
neither eight characters nor a digit nor a special character. -/
theorem update_stores_unvalidated_password_witness :
    passwordChain (some "abc") ≠ [] ∧
    (updateRoute sampleEnv ["/uploads/profile-1-1.png"] [sampleUser] "alice"
      [("currentPassword", "secret12!"), ("newPassword", "abc")] none).status = some 200 ∧
    { sampleUser with password := "hash:abc", updatedAt := 7 } ∈
      (updateRoute sampleEnv ["/uploads/profile-1-1.png"] [sampleUser] "alice"
        [("currentPassword", "secret12!"), ("newPassword", "abc")] none).repo :=
  ⟨by decide,
    update_stores_unvalidated_password sampleEnv _ [sampleUser] "alice" "secret12!" "abc"
      sampleUser rfl rfl rfl (by decide) rfl⟩

/-! ### The score of an accepted password -/

theorem isSpecial_isNonAlnum (c : Char) (h : isSpecial c = true) : isNonAlnum c = true := by
  have hall : ∀ d ∈ "!@#$%^&*".toList, isNonAlnum d = true := by decide
  unfold isSpecial at h
  exact hall c (List.elem_iff.mp h)

/-- What the validation of `/check-password` implies for an accepted
password: at least eight UTF-16 code units, a digit, and a character of
`!@#$%^&*`, which is neither a letter nor a digit. -/
theorem accepted_password_facts (p : String) (h : passwordChain (some p) = []) :
    8 ≤ validatorLength p ∧ 8 ≤ jsLength p ∧ hasDigit p = true ∧
    p.toList.any isSpecial = true ∧ hasNonAlnum p = true := by
  have hb := (passwordChain_nil_iff (some p)).mp h
  simp only [toStr, Option.getD_some, Bool.and_eq_true] at hb
  obtain ⟨hlen, hm⟩ := hb
  have h8 : 8 ≤ validatorLength p := by
    simpa [isLength] using hlen
  unfold matchesDigitAndSpecial at hm
  rw [Bool.and_eq_true] at hm
  have hd : p.toList.any isDigit = true := lookahead_any isDigit p hm.1
  have hs : p.toList.any isSpecial = true := lookahead_any isSpecial p hm.2
  refine ⟨h8, le_trans h8 (validatorLength_le_jsLength p), hd, hs, ?_⟩
  obtain ⟨c, hc, hcs⟩ := List.any_eq_true.mp hs
  exact List.any_eq_true.mpr ⟨c, hc, isSpecial_isNonAlnum c hcs⟩

theorem specStrength_weak_iff (n : Nat) : specStrength n = "weak" ↔ n < 4 := by
  unfold specStrength
  by_cases h6 : n ≥ 6
  · simp [h6]; omega
  · by_cases h4 : n ≥ 4
    · simp [h6, h4]
    · simp [h6, h4]; omega

/-- C11: a password that the validation of `/check-password` accepts has at
least eight characters as `isLength` counts them, a digit and a character of
`!@#$%^&*`; it is answered 200 with `valid = true` and a score between 3 and
6, and the strength is weak exactly when the score is 3, that is exactly when
`password.length` is below 12 and the password has neither an ASCII lowercase
nor an ASCII uppercase letter. -/
theorem accepted_password_score (p : String) (h : passwordChain (some p) = []) :
    (8 ≤ validatorLength p ∧ hasDigit p = true ∧ p.toList.any isSpecial = true) ∧
    ∃ strength score,
      checkPassword (some p) = { status := 200, body := .strength true strength score } ∧
      3 ≤ score ∧ score ≤ 6 ∧
      (strength = "weak" ↔ score = 3) ∧
      (score = 3 ↔ (jsLength p < 12 ∧ hasLower p = false ∧ hasUpper p = false)) := by
  obtain ⟨h8, hjs, hd, hs, hn⟩ := accepted_password_facts p h
  refine ⟨⟨h8, hd, hs⟩, specStrength (specScore p), specScore p, ?_, ?_⟩
  · unfold checkPassword
    simp [h, toStr, passwordScore_eq_specScore, strengthLevel_eq_specStrength]
  · have hscore : specScore p = 3 + (if jsLength p ≥ 12 then 1 else 0) +
        (if hasLower p then 1 else 0) + (if hasUpper p then 1 else 0) := by
      unfold specScore
      simp only [hjs, hd, hn, ge_iff_le, if_true]
      omega
    rw [specStrength_weak_iff, hscore]
    by_cases h12 : jsLength p ≥ 12 <;> cases hl : hasLower p <;> cases hu : hasUpper p <;>
      first
      | (simp [h12]; omega)
      | simp [h12]

/-- Witness of C11: `"12345678!"` is accepted and scores 3, weak. -/
theorem accepted_password_score_witness :
    passwordChain (some "12345678!") = [] ∧
    checkPassword (some "12345678!") = { status := 200, body := .strength true "weak" 3 } ∧
    ∃ strength score,
      checkPassword (some "12345678!") =
        { status := 200, body := .strength true strength score } ∧
      3 ≤ score ∧ score ≤ 6 ∧
      (strength = "weak" ↔ score = 3) ∧
      (score = 3 ↔ (jsLength "12345678!" < 12 ∧ hasLower "12345678!" = false ∧
        hasUpper "12345678!" = false)) :=
  ⟨by decide, by decide, (accepted_password_score "12345678!" (by decide)).2⟩

end ProfileForm
